import Mathlib

/-!
Verification development for the browser synthesizer repository.

The repository contains the voice engine in two implementations:
a modular one (`src/core/AudioEngine.js` / `VoiceManager.js` /
`PresetManager.js` / `controllers/MIDIController.js` / `utils/utils.js`)
and a legacy monolithic one (`synthesizer.js`, class `Synthesizer`).
Both are embedded below where a property refers to both.

Numbers are modelled by `ℚ` where the source only performs field
arithmetic on literals (preset conversions, envelope schedules), and by
`ℝ` where the source uses `Math.pow`/`Math.sqrt` (frequencies, dB
conversion, polyphony compensation).
-/

namespace Synth

/-! ## Frequency resolution (`src/utils/utils.js`, `MIDIController.handleMIDINoteOn`) -/

/-- The twelve note names of the `noteFrequencies` table. -/
inductive NoteName
  | C | Cs | D | Ds | E | F | Fs | G | Gs | A | As | B
deriving DecidableEq

/-- The `noteFrequencies` table of `src/utils/utils.js` (and the identical
`this.noteFrequencies` of the monolithic `Synthesizer`): base frequencies
in Hz, referenced to octave 4. -/
def noteFrequencies : NoteName → ℚ
  | .C => 261.63
  | .Cs => 277.18
  | .D => 293.66
  | .Ds => 311.13
  | .E => 329.63
  | .F => 349.23
  | .Fs => 369.99
  | .G => 392.0
  | .Gs => 415.3
  | .A => 440.0
  | .As => 466.16
  | .B => 493.88

/-- `getFrequency(note, octave)` from `src/utils/utils.js`:
`baseFreq * Math.pow(2, octave - 4)`. The exponent is an integer, so the
value is an exact rational. -/
def getFrequency (note : NoteName) (octave : ℤ) : ℚ :=
  noteFrequencies note * (2 : ℚ) ^ (octave - 4)

/-- The MIDI-note-to-frequency conversion of
`MIDIController.handleMIDINoteOn`:
`440 * Math.pow(2, (midiNote - 69) / 12)`. -/
noncomputable def midiNoteFrequency (midiNote : ℕ) : ℝ :=
  440 * (2 : ℝ) ^ (((midiNote : ℝ) - 69) / 12)

/-! ## Hard clipper (`AudioEngine.updateHardClipperCurve`) -/

/-- Conversion of a dB value to linear amplitude:
`Math.pow(10, db / 20)`. -/
noncomputable def dbToLinear (db : ℝ) : ℝ :=
  (10 : ℝ) ^ (db / 20)

/-- The pointwise hard-clipping rule of `updateHardClipperCurve`:
`if (x > c) c; else if (x < -c) -c; else x` where `c` is the linear
ceiling. -/
noncomputable def hardClip (c x : ℝ) : ℝ :=
  if x > c then c else if x < -c then -c else x

/-- Sample `i` of the 4096-point transfer curve built by
`updateHardClipperCurve` for ceiling `ceilingDb` (in dB):
`x = (i * 2) / samples - 1` hard-clipped at `Math.pow(10, ceiling / 20)`. -/
noncomputable def hardClipperCurve (ceilingDb : ℝ) (i : ℕ) : ℝ :=
  hardClip (dbToLinear ceilingDb) ((i * 2 : ℝ) / 4096 - 1)

/-! ## Polyphony gain compensation (`AudioEngine.updateMasterGainForPolyphony`) -/

/-- The compensation factor `Math.min(1, 0.5 + 0.5 / Math.sqrt(numVoices))`. -/
noncomputable def compensationFactor (numVoices : ℕ) : ℝ :=
  min 1 (0.5 + 0.5 / Real.sqrt numVoices)

/-- `AudioEngine.updateMasterGainForPolyphony(numVoices)`, modelled by its
effect on the master gain automation: it returns the target value of the
10 ms linear ramp it schedules, or `none` when it returns without
scheduling anything (`if (numVoices === 0 || !this.audioContext) return;`). -/
noncomputable def updateMasterGainForPolyphony
    (audioContextReady : Bool) (masterVolume : ℝ) (numVoices : ℕ) : Option ℝ :=
  if numVoices = 0 ∨ audioContextReady = false then none
  else some (masterVolume * compensationFactor numVoices)

/-! ## MIDI message dispatch (`MIDIController.handleMIDIMessage`, identical
in the monolithic `Synthesizer.handleMIDIMessage`) -/

/-- The handler a MIDI message is dispatched to. -/
inductive MIDIDispatch
  | noteOn (note velocity : ℕ)
  | noteOff (note : ℕ)
  | controlChange (cc value : ℕ)
  | ignored
deriving DecidableEq

/-- `handleMIDIMessage([command, note, velocity])`: switches on
`command & 0xf0`; a Note On (0x90) with zero velocity is routed to the
note-off handler. -/
def handleMIDIMessage (command note velocity : ℕ) : MIDIDispatch :=
  let messageType := command &&& 0xf0
  if messageType = 0x90 then
    if velocity > 0 then .noteOn note velocity else .noteOff note
  else if messageType = 0x80 then .noteOff note
  else if messageType = 0xb0 then .controlChange note velocity
  else .ignored

/-! ## Deferred voice cleanup (`VoiceManager.stopNote` and
`MIDIController.handleMIDINoteOff`)

Both places schedule the same callback:

  setTimeout(() => {
    try {
      voice.ampGain.disconnect();
      voice.filter.disconnect();
      voice.gainNodes.forEach((g) => g.disconnect());
    } catch (e) {}
  }, release * 1000 + 50);

One `try` block wraps all three statements. -/

/-- The three disconnect statements of the deferred cleanup callback,
in source order. -/
inductive CleanupStep
  | disconnectAmpGain
  | disconnectFilter
  | disconnectGainNodes
deriving DecidableEq

/-- Runs a list of statements inside a single try/catch: statements run
in order until the first one that throws (`throws s = true`); the
exception is swallowed and the following statements are skipped.
Returns the statements that were actually executed (the throwing one
included, as its side effect may be partial). -/
def runTryBlock (throws : CleanupStep → Bool) : List CleanupStep → List CleanupStep
  | [] => []
  | s :: rest => if throws s then [s] else s :: runTryBlock throws rest

/-- The statement list of the deferred cleanup callback. -/
def cleanupSteps : List CleanupStep :=
  [.disconnectAmpGain, .disconnectFilter, .disconnectGainNodes]

/-- The deferred cleanup callback of `VoiceManager.stopNote` /
`MIDIController.handleMIDINoteOff`: the three disconnects inside one
try/catch. -/
def runCleanup (throws : CleanupStep → Bool) : List CleanupStep :=
  runTryBlock throws cleanupSteps

/-! ## Audio parameter automation

The Web Audio `AudioParam` scheduling primitives used by the voice code:
`setValueAtTime`, `linearRampToValueAtTime`, `cancelScheduledValues`,
plus the `value` getter. Times and values are exact rationals. -/

/-- One scheduled automation call on a gain parameter. -/
inductive AutomationEvent
  | setValue (v : ℚ) (t : ℚ)
  | linearRamp (v : ℚ) (t : ℚ)
deriving DecidableEq

/-- The event time an automation call is anchored to. -/
def eventTime : AutomationEvent → ℚ
  | .setValue _ t => t
  | .linearRamp _ t => t

/-- Value of an automation timeline at time `t`, starting from previous
value `pv` anchored at previous time `pt`: a `setValue v te` holds `pv`
before `te` and `v` from `te` on; a `linearRamp v te` interpolates
linearly from `(pt, pv)` to `(te, v)` and holds `v` from `te` on.
The degenerate ramp with `te ≤ pt` jumps to `v`. -/
def evalAutomation (pv pt : ℚ) : List AutomationEvent → ℚ → ℚ
  | [], _ => pv
  | .setValue v te :: rest, t =>
      if t < te then pv else evalAutomation v te rest t
  | .linearRamp v te :: rest, t =>
      if t < te then
        (if te ≤ pt then v else pv + (v - pv) * (t - pt) / (te - pt))
      else evalAutomation v te rest t

/-- Final (value, time) anchor after all events in a timeline ran. -/
def runEvents (pv pt : ℚ) : List AutomationEvent → ℚ × ℚ
  | [] => (pv, pt)
  | .setValue v te :: rest => runEvents v te rest
  | .linearRamp v te :: rest => runEvents v te rest

/-- A gain `AudioParam`: the `value` attribute as last assigned directly,
plus the scheduled automation events in call order. -/
structure GainParam where
  value : ℚ
  events : List AutomationEvent
deriving DecidableEq

/-- `param.setValueAtTime(v, t)`. -/
def setValueAtTime (g : GainParam) (v t : ℚ) : GainParam :=
  ⟨g.value, g.events ++ [.setValue v t]⟩

/-- `param.linearRampToValueAtTime(v, t)`. -/
def linearRampToValueAtTime (g : GainParam) (v t : ℚ) : GainParam :=
  ⟨g.value, g.events ++ [.linearRamp v t]⟩

/-- `param.cancelScheduledValues(t)`: removes every scheduled event whose
time is at or after `t`. -/
def cancelScheduledValues (g : GainParam) (t : ℚ) : GainParam :=
  ⟨g.value, g.events.filter (fun e => eventTime e < t)⟩

/-- The `param.value` getter at audio-clock time `t`: the instantaneous
automated value of the parameter. Before the first event this is the
directly assigned `value` attribute (the schedules built below always
begin with a `setValue`, so the initial anchor time 0 is never used by
a leading ramp). -/
def paramValue (g : GainParam) (t : ℚ) : ℚ :=
  evalAutomation g.value 0 g.events t

/-- The release scheduling of `VoiceManager.stopNote` (and of
`MIDIController.handleMIDINoteOff` and the monolithic
`Synthesizer.stopNote`, which are identical):

  voice.ampGain.gain.cancelScheduledValues(now);
  voice.ampGain.gain.setValueAtTime(voice.ampGain.gain.value, now);
  voice.ampGain.gain.linearRampToValueAtTime(0, now + release);

The `value` getter is modelled as the instantaneous automated value the
rendering clock reports as the call runs, i.e. computed from the
schedule in force when the call begins. -/
def releaseEnvelope (g : GainParam) (now release : ℚ) : GainParam :=
  let current := paramValue g now
  let cancelled := cancelScheduledValues g now
  let held := setValueAtTime cancelled current now
  linearRampToValueAtTime held 0 (now + release)

/-- The amplitude-envelope schedule created in `VoiceManager.playNote`
(and identically in `createMIDIVoice` and in the monolithic `playNote`):

  voice.ampGain = audioContext.createGain();
  voice.ampGain.gain.value = 0;
  ...
  voice.ampGain.gain.setValueAtTime(0, now);
  voice.ampGain.gain.linearRampToValueAtTime(1, attackEnd);
  voice.ampGain.gain.linearRampToValueAtTime(this.ampEnv.sustain, decayEnd);

with `attackEnd = now + attack` and `decayEnd = attackEnd + decay`. -/
def ampEnvelopeSchedule (now attack decay sustain : ℚ) : GainParam :=
  linearRampToValueAtTime
    (linearRampToValueAtTime (setValueAtTime ⟨0, []⟩ 0 now) 1 (now + attack))
    sustain (now + attack + decay)

/-! ## Voice manager state (`VoiceManager` in the modular sources,
`Synthesizer` in the legacy monolithic `synthesizer.js`)

The state tracks the `activeVoices` map, the patch parameters read at
voice construction, and a log of the imperative effects issued
(oscillator stop calls, timer registration/cancellation, polyphony gain
updates). Voice instances carry a creation counter so that distinct
constructions are distinguishable. -/

/-- Oscillator patch parameters (`this.osc1` / `this.osc2`). -/
structure OscParams where
  wave : String
  detune : ℚ
  level : ℚ
deriving DecidableEq

/-- Amplitude envelope patch parameters (`this.ampEnv`). -/
structure AmpEnvParams where
  attack : ℚ
  decay : ℚ
  sustain : ℚ
  release : ℚ
deriving DecidableEq

/-- One voice stored in the `activeVoices` map. `id` is a creation
counter identifying the instance; `sources` counts the started
oscillator/noise source nodes; the timer fields hold the ids of the
pending `setTimeout` handles, when registered. -/
structure Voice where
  id : ℕ
  createdAt : ℚ
  sources : ℕ
  hasLfo : Bool
  ampGain : GainParam
  safetyTimer : Option ℕ
  cleanupTimer : Option ℕ
deriving DecidableEq

/-- An imperative effect issued by the voice manager. -/
inductive Effect
  | stopSources (voiceId : ℕ) (t : ℚ)
  | stopLfo (voiceId : ℕ) (t : ℚ)
  | clearTimer (timerId : ℕ)
  | startSafetyTimer (timerId : ℕ) (delayMs : ℚ)
  | startCleanupTimer (timerId : ℕ) (delayMs : ℚ)
  | polyphonyUpdate (numVoices : ℕ)
deriving DecidableEq

/-- The full voice-manager state. `detachedGains` collects the amplitude
gain params of voices that entered release (the nodes linger outside the
map until their deferred cleanup). -/
structure VMState where
  nextVoiceId : ℕ
  nextTimerId : ℕ
  activeVoices : List (String × Voice)
  osc1 : OscParams
  osc2 : OscParams
  noiseLevel : ℚ
  octave : ℤ
  ampEnv : AmpEnvParams
  lfoPitchDepth : ℚ
  lfoFilterDepth : ℚ
  lfoAmpDepth : ℚ
  detachedGains : List (ℕ × GainParam)
  log : List Effect
deriving DecidableEq

/-- JS `Map.get` on the insertion-ordered entry list. -/
def mapLookup (k : String) : List (String × Voice) → Option Voice
  | [] => none
  | (k0, v0) :: rest => if k0 = k then some v0 else mapLookup k rest

/-- JS `Map.delete`. -/
def mapDelete (k : String) (m : List (String × Voice)) : List (String × Voice) :=
  m.filter (fun kv => kv.1 ≠ k)

/-- JS `Map.set`: replaces the value at an existing key in place,
otherwise appends. -/
def mapSet (k : String) (v : Voice) : List (String × Voice) → List (String × Voice)
  | [] => [(k, v)]
  | (k0, v0) :: rest => if k0 = k then (k, v) :: rest else (k0, v0) :: mapSet k v rest

/-- Number of entries stored under key `k`. -/
def countKey (k : String) (m : List (String × Voice)) : ℕ :=
  (m.filter (fun kv => kv.1 = k)).length

/-- The note identity key: `` `${note}_${octaveOffset}` ``. -/
def noteIdOf (note : String) (octaveOffset : ℤ) : String :=
  note ++ "_" ++ toString octaveOffset

/-- Number of source nodes `playNote` starts: oscillator 1 and 2 when
their level is positive, plus the noise source when the noise level is
positive. -/
def sourceCount (s : VMState) : ℕ :=
  (if s.osc1.level > 0 then 1 else 0) +
    (if s.osc2.level > 0 then 1 else 0) +
    (if s.noiseLevel > 0 then 1 else 0)

/-- Whether `playNote` creates the per-voice LFO:
`lfo.pitchDepth > 0 || lfo.filterDepth > 0 || lfo.ampDepth > 0`. -/
def lfoActive (s : VMState) : Bool :=
  if s.lfoPitchDepth > 0 ∨ s.lfoFilterDepth > 0 ∨ s.lfoAmpDepth > 0 then true else false

/-- The effects `VoiceManager.cleanupVoice(voice, noteId)` issues, in
source order: clear the pending cleanup timeout if any, clear the
pending safety timeout if any, stop all source nodes immediately
(`osc.stop(now)`), stop the LFO immediately if present. -/
def teardownEffects (v : Voice) (now : ℚ) : List Effect :=
  (match v.cleanupTimer with
    | some tid => [Effect.clearTimer tid]
    | none => []) ++
  (match v.safetyTimer with
    | some tid => [Effect.clearTimer tid]
    | none => []) ++
  [Effect.stopSources v.id now] ++
  (if v.hasLfo then [Effect.stopLfo v.id now] else [])

/-- `VoiceManager.cleanupVoice(voice, noteId)`: cancels the voice's
pending timers, stops its sources at the current time, and removes the
map entry. -/
def cleanupVoice (s : VMState) (noteId : String) (v : Voice) (now : ℚ) : VMState :=
  { s with
    activeVoices := mapDelete noteId s.activeVoices
    log := s.log ++ teardownEffects v now }

/-- The voice object constructed by `VoiceManager.playNote` (source
nodes gated by the levels, optional LFO, amplitude envelope scheduled at
`now`, safety timeout registered). -/
def freshVoice (s : VMState) (now : ℚ) : Voice :=
  { id := s.nextVoiceId
    createdAt := now
    sources := sourceCount s
    hasLfo := lfoActive s
    ampGain := ampEnvelopeSchedule now s.ampEnv.attack s.ampEnv.decay s.ampEnv.sustain
    safetyTimer := some s.nextTimerId
    cleanupTimer := none }

/-- `VoiceManager.playNote(note, keyElement, octaveOffset)` from the
modular sources: if the identity already has an active voice it is first
torn down via `cleanupVoice`; then the new voice is constructed, stored,
the polyphony compensation is recomputed with the new map size, and the
60 s safety timeout is registered. -/
def playNote (s : VMState) (note : String) (octaveOffset : ℤ) (now : ℚ) : VMState :=
  let noteId := noteIdOf note octaveOffset
  let s1 :=
    match mapLookup noteId s.activeVoices with
    | some oldVoice => cleanupVoice s noteId oldVoice now
    | none => s
  let voice := freshVoice s1 now
  let voices2 := mapSet noteId voice s1.activeVoices
  { s1 with
    nextVoiceId := s1.nextVoiceId + 1
    nextTimerId := s1.nextTimerId + 1
    activeVoices := voices2
    log := s1.log ++
      [Effect.polyphonyUpdate voices2.length,
       Effect.startSafetyTimer s1.nextTimerId 60000] }

/-- `VoiceManager.stopNote(noteId, keyElement)` from the modular
sources: no-op when the identity has no active voice; otherwise clears
the safety timeout, schedules the release envelope from the current
gain value, schedules every source (and the LFO if present) to stop at
`now + release`, removes the map entry, recomputes polyphony
compensation with the new size, and registers the deferred cleanup at
`release * 1000 + 50` ms. -/
def stopNote (s : VMState) (noteId : String) (now : ℚ) : VMState :=
  match mapLookup noteId s.activeVoices with
  | none => s
  | some voice =>
    let clearLog :=
      match voice.safetyTimer with
      | some tid => [Effect.clearTimer tid]
      | none => []
    let released := releaseEnvelope voice.ampGain now s.ampEnv.release
    let stopLog :=
      [Effect.stopSources voice.id (now + s.ampEnv.release)] ++
        (if voice.hasLfo then [Effect.stopLfo voice.id (now + s.ampEnv.release)] else [])
    let voices2 := mapDelete noteId s.activeVoices
    { s with
      activeVoices := voices2
      nextTimerId := s.nextTimerId + 1
      detachedGains := s.detachedGains ++ [(voice.id, released)]
      log := s.log ++ clearLog ++ stopLog ++
        [Effect.polyphonyUpdate voices2.length,
         Effect.startCleanupTimer s.nextTimerId (s.ampEnv.release * 1000 + 50)] }

/-- `Synthesizer.playNote(note, keyElement, octaveOffset)` from the
legacy monolithic `synthesizer.js`: when the identity already has an
active voice the call returns immediately (`return; // Already
playing`); otherwise it constructs and stores a voice. The monolithic
version registers no safety timeout and performs no polyphony update. -/
def playNoteMono (s : VMState) (note : String) (octaveOffset : ℤ) (now : ℚ) : VMState :=
  let noteId := noteIdOf note octaveOffset
  if (mapLookup noteId s.activeVoices).isSome then s
  else
    let voice :=
      { id := s.nextVoiceId
        createdAt := now
        sources := sourceCount s
        hasLfo := lfoActive s
        ampGain := ampEnvelopeSchedule now s.ampEnv.attack s.ampEnv.decay s.ampEnv.sustain
        safetyTimer := none
        cleanupTimer := none : Voice }
    { s with
      nextVoiceId := s.nextVoiceId + 1
      activeVoices := mapSet noteId voice s.activeVoices }

/-- The constructor defaults shared by `VoiceManager` and the monolithic
`Synthesizer`: osc1 sawtooth level 1.0, osc2 square detune 7 level 0.5,
no noise, octave 4, ampEnv attack 0.01 / decay 0.1 / sustain 0.7 /
release 0.3, all LFO depths 0, empty voice map. -/
def initialVoiceManager : VMState :=
  { nextVoiceId := 0
    nextTimerId := 0
    activeVoices := []
    osc1 := { wave := "sawtooth", detune := 0, level := 1 }
    osc2 := { wave := "square", detune := 7, level := 0.5 }
    noiseLevel := 0
    octave := 4
    ampEnv := { attack := 0.01, decay := 0.1, sustain := 0.7, release := 0.3 }
    lfoPitchDepth := 0
    lfoFilterDepth := 0
    lfoAmpDepth := 0
    detachedGains := []
    log := [] }

/-! ## Effects-chain signal graph

The shared node graph wired once at initialization: by
`AudioEngine.connectEffectsChain` in the modular sources and by
`Synthesizer.initAudioContext` in the legacy monolithic
`synthesizer.js`. Each `a.connect(b)` call is one directed edge. -/

/-- The shared effect nodes (the per-voice nodes feed `masterGain`). -/
inductive ChainNode
  | masterGain
  | distortion
  | chorusDelay
  | chorusWet
  | chorusDry
  | flangerDelay
  | flangerWet
  | flangerDry
  | flangerFeedback
  | delayNode
  | delayFeedback
  | delayWet
  | delayDry
  | convolver
  | reverbWet
  | reverbDry
  | limiterGain
  | limiterCompressor
  | hardClipper
  | analyser
  | destination
deriving DecidableEq, Fintype

/-- The `connect` calls of `AudioEngine.connectEffectsChain`
(`src/core/AudioEngine.js`), in source order. -/
def modularEdges : List (ChainNode × ChainNode) :=
  [(.masterGain, .distortion),
   (.distortion, .chorusDry),
   (.distortion, .chorusDelay),
   (.chorusDelay, .chorusWet),
   (.chorusDry, .flangerDry),
   (.chorusWet, .flangerDry),
   (.chorusDry, .flangerDelay),
   (.chorusWet, .flangerDelay),
   (.flangerDelay, .flangerWet),
   (.flangerDelay, .flangerFeedback),
   (.flangerFeedback, .flangerDelay),
   (.flangerDry, .delayDry),
   (.flangerWet, .delayDry),
   (.flangerDry, .delayNode),
   (.flangerWet, .delayNode),
   (.delayNode, .delayFeedback),
   (.delayFeedback, .delayNode),
   (.delayFeedback, .delayWet),
   (.delayDry, .reverbDry),
   (.delayWet, .reverbDry),
   (.reverbDry, .convolver),
   (.convolver, .reverbWet),
   (.reverbDry, .limiterGain),
   (.reverbWet, .limiterGain),
   (.limiterGain, .limiterCompressor),
   (.limiterCompressor, .hardClipper),
   (.hardClipper, .analyser),
   (.analyser, .destination)]

/-- The `connect` calls of the legacy `Synthesizer.initAudioContext`
(`synthesizer.js`), in source order. This version has no limiter stage:
the reverb output feeds the analyser directly. -/
def monolithEdges : List (ChainNode × ChainNode) :=
  [(.masterGain, .distortion),
   (.distortion, .chorusDry),
   (.distortion, .chorusDelay),
   (.chorusDelay, .chorusWet),
   (.chorusDry, .flangerDry),
   (.chorusWet, .flangerDry),
   (.chorusDry, .flangerDelay),
   (.chorusWet, .flangerDelay),
   (.flangerDelay, .flangerWet),
   (.flangerDelay, .flangerFeedback),
   (.flangerFeedback, .flangerDelay),
   (.flangerDry, .delayDry),
   (.flangerWet, .delayDry),
   (.flangerDry, .delayNode),
   (.flangerWet, .delayNode),
   (.delayNode, .delayFeedback),
   (.delayFeedback, .delayNode),
   (.delayFeedback, .delayWet),
   (.delayDry, .reverbDry),
   (.delayWet, .reverbDry),
   (.reverbDry, .convolver),
   (.convolver, .reverbWet),
   (.reverbDry, .analyser),
   (.reverbWet, .analyser),
   (.analyser, .destination)]

/-- A signal path: consecutive nodes joined by edges of `E`. -/
def isChain (E : List (ChainNode × ChainNode)) : List ChainNode → Bool
  | a :: b :: rest => decide ((a, b) ∈ E) && isChain E (b :: rest)
  | _ => true

/-! ## Presets (`PresetManager` in the modular sources)

A persisted preset stores level/depth/mix fields as percentages (0-100);
`loadPreset` converts them to unit-interval decimals and
`getCurrentSettings` converts back. Effect fields that older presets may
omit are `Option`-valued; `loadPreset` reads them with JS `||` defaults,
which also replace a stored `0` (JS treats 0 as falsy).

The built-in preset table itself (consumed via `getPresetData()` from
`src/data/presets.js`) is embedded from the inline `initializePresets`
table of the monolithic `synthesizer.js`, which carries the repository's
built-in patches. -/

/-- Filter patch parameters (`this.filter`). `type` is the biquad filter
type string. -/
structure FilterParams where
  type : String
  cutoff : ℚ
  resonance : ℚ
  envAmount : ℚ
  attack : ℚ
  decay : ℚ
deriving DecidableEq

/-- LFO patch parameters (`this.lfo`). -/
structure LFOParams where
  wave : String
  rate : ℚ
  pitchDepth : ℚ
  filterDepth : ℚ
  ampDepth : ℚ
deriving DecidableEq

/-- The `effects` object of a persisted preset. The first four fields
are present in every built-in preset; the remaining six were added later
and are absent from older presets. -/
structure EffectsPreset where
  delayTime : ℚ
  delayFeedback : ℚ
  delayMix : ℚ
  reverbMix : ℚ
  distortionDrive : Option ℚ
  chorusRate : Option ℚ
  chorusDepth : Option ℚ
  flangerRate : Option ℚ
  flangerDepth : Option ℚ
  flangerFeedbackAmount : Option ℚ
deriving DecidableEq

/-- A persisted preset (levels, depths, mixes and master volume as
percentages). -/
structure Preset where
  name : String
  osc1 : OscParams
  osc2 : OscParams
  noiseLevel : ℚ
  octave : ℚ
  filter : FilterParams
  ampEnv : AmpEnvParams
  lfo : LFOParams
  effects : EffectsPreset
  masterVolume : ℚ
  maxVolume : Option ℚ
deriving DecidableEq

/-- The live `audioEngine.effects` object (unit-interval decimals, all
fields present). -/
structure LiveEffects where
  delayTime : ℚ
  delayFeedback : ℚ
  delayMix : ℚ
  reverbMix : ℚ
  distortionDrive : ℚ
  chorusRate : ℚ
  chorusDepth : ℚ
  flangerRate : ℚ
  flangerDepth : ℚ
  flangerFeedbackAmount : ℚ
deriving DecidableEq

/-- The live parameter state `loadPreset` writes into the voice manager
and the audio engine. -/
structure LiveSettings where
  osc1 : OscParams
  osc2 : OscParams
  noiseLevel : ℚ
  octave : ℚ
  filter : FilterParams
  ampEnv : AmpEnvParams
  lfo : LFOParams
  effects : LiveEffects
  masterVolume : ℚ
  maxVolume : ℚ
deriving DecidableEq

/-- The snapshot returned by `getCurrentSettings` (percentage form, all
fields present). -/
structure Snapshot where
  osc1 : OscParams
  osc2 : OscParams
  noiseLevel : ℚ
  octave : ℚ
  filter : FilterParams
  ampEnv : AmpEnvParams
  lfo : LFOParams
  effects : LiveEffects
  masterVolume : ℚ
  maxVolume : ℚ
deriving DecidableEq

/-- JS `x || d` on a possibly-absent numeric field: the default replaces
a missing value and also a stored `0` (0 is falsy in JS). -/
def orDefault (x : Option ℚ) (d : ℚ) : ℚ :=
  match x with
  | some v => if v = 0 then d else v
  | none => d

/-- `PresetManager.loadPreset(preset)` (`src/managers/PresetManager.js`):
percentage fields divided by 100, `filter` and `ampEnv` copied verbatim,
optional effect fields read through `||` defaults. (The pushes into the
live audio nodes repeat these same values and carry no further state.) -/
def loadPreset (p : Preset) : LiveSettings :=
  { osc1 := { wave := p.osc1.wave, detune := p.osc1.detune, level := p.osc1.level / 100 }
    osc2 := { wave := p.osc2.wave, detune := p.osc2.detune, level := p.osc2.level / 100 }
    noiseLevel := p.noiseLevel / 100
    octave := p.octave
    filter := p.filter
    ampEnv := p.ampEnv
    lfo :=
      { wave := p.lfo.wave
        rate := p.lfo.rate
        pitchDepth := p.lfo.pitchDepth
        filterDepth := p.lfo.filterDepth
        ampDepth := p.lfo.ampDepth / 100 }
    effects :=
      { delayTime := p.effects.delayTime
        delayFeedback := p.effects.delayFeedback / 100
        delayMix := p.effects.delayMix / 100
        reverbMix := p.effects.reverbMix / 100
        distortionDrive := orDefault p.effects.distortionDrive 0
        chorusRate := orDefault p.effects.chorusRate 0.5
        chorusDepth := orDefault p.effects.chorusDepth 0 / 100
        flangerRate := orDefault p.effects.flangerRate 0.3
        flangerDepth := orDefault p.effects.flangerDepth 0 / 100
        flangerFeedbackAmount := orDefault p.effects.flangerFeedbackAmount 50 / 100 }
    masterVolume := p.masterVolume / 100
    maxVolume := orDefault p.maxVolume 100 / 100 }

/-- `PresetManager.getCurrentSettings()`: the inverse percentage
conversion on the same fields. -/
def getCurrentSettings (s : LiveSettings) : Snapshot :=
  { osc1 := { wave := s.osc1.wave, detune := s.osc1.detune, level := s.osc1.level * 100 }
    osc2 := { wave := s.osc2.wave, detune := s.osc2.detune, level := s.osc2.level * 100 }
    noiseLevel := s.noiseLevel * 100
    octave := s.octave
    filter := s.filter
    ampEnv := s.ampEnv
    lfo :=
      { wave := s.lfo.wave
        rate := s.lfo.rate
        pitchDepth := s.lfo.pitchDepth
        filterDepth := s.lfo.filterDepth
        ampDepth := s.lfo.ampDepth * 100 }
    effects :=
      { delayTime := s.effects.delayTime
        delayFeedback := s.effects.delayFeedback * 100
        delayMix := s.effects.delayMix * 100
        reverbMix := s.effects.reverbMix * 100
        distortionDrive := s.effects.distortionDrive
        chorusRate := s.effects.chorusRate
        chorusDepth := s.effects.chorusDepth * 100
        flangerRate := s.effects.flangerRate
        flangerDepth := s.effects.flangerDepth * 100
        flangerFeedbackAmount := s.effects.flangerFeedbackAmount * 100 }
    masterVolume := s.masterVolume * 100
    maxVolume := s.maxVolume * 100 }

/-- Field-wise agreement of a snapshot with a persisted preset on every
field the preset defines (absent optional fields are unconstrained). -/
def presetMatches (p : Preset) (snap : Snapshot) : Prop :=
  snap.osc1 = p.osc1 ∧
  snap.osc2 = p.osc2 ∧
  snap.noiseLevel = p.noiseLevel ∧
  snap.octave = p.octave ∧
  snap.filter = p.filter ∧
  snap.ampEnv = p.ampEnv ∧
  snap.lfo = p.lfo ∧
  snap.effects.delayTime = p.effects.delayTime ∧
  snap.effects.delayFeedback = p.effects.delayFeedback ∧
  snap.effects.delayMix = p.effects.delayMix ∧
  snap.effects.reverbMix = p.effects.reverbMix ∧
  (∀ v, p.effects.distortionDrive = some v → snap.effects.distortionDrive = v) ∧
  (∀ v, p.effects.chorusRate = some v → snap.effects.chorusRate = v) ∧
  (∀ v, p.effects.chorusDepth = some v → snap.effects.chorusDepth = v) ∧
  (∀ v, p.effects.flangerRate = some v → snap.effects.flangerRate = v) ∧
  (∀ v, p.effects.flangerDepth = some v → snap.effects.flangerDepth = v) ∧
  (∀ v, p.effects.flangerFeedbackAmount = some v → snap.effects.flangerFeedbackAmount = v) ∧
  snap.masterVolume = p.masterVolume ∧
  (∀ v, p.maxVolume = some v → snap.maxVolume = v)

/-- The first built-in preset, `bass[0]`. -/
def deepSubBassPreset : Preset :=
  { name := "Deep Sub Bass"
    osc1 := { wave := "sine", detune := 0, level := 100 }
    osc2 := { wave := "sine", detune := -12, level := 50 }
    noiseLevel := 0
    octave := 3
    filter := { type := "lowpass", cutoff := 200, resonance := 1, envAmount := 0, attack := 0.01, decay := 0.1 }
    ampEnv := { attack := 0.01, decay := 0.3, sustain := 0.7, release := 0.5 }
    lfo := { wave := "sine", rate := 5, pitchDepth := 0, filterDepth := 0, ampDepth := 0 }
    effects := { delayTime := 0.3, delayFeedback := 30, delayMix := 0, reverbMix := 10, distortionDrive := none, chorusRate := none, chorusDepth := none, flangerRate := none, flangerDepth := none, flangerFeedbackAmount := none }
    masterVolume := 60
    maxVolume := none }

/-- The `bass` category of the built-in preset table (19 patches). -/
def bassPresets : List Preset := [
  deepSubBassPreset,
  { name := "Funky Bass"
    osc1 := { wave := "sawtooth", detune := 0, level := 100 }
    osc2 := { wave := "square", detune := 7, level := 40 }
    noiseLevel := 5
    octave := 3
    filter := { type := "lowpass", cutoff := 800, resonance := 8, envAmount := 1200, attack := 0.01, decay := 0.15 }
    ampEnv := { attack := 0.01, decay := 0.2, sustain := 0.3, release := 0.2 }
    lfo := { wave := "sine", rate := 6, pitchDepth := 0, filterDepth := 0, ampDepth := 0 }
    effects := { delayTime := 0.3, delayFeedback := 20, delayMix := 0, reverbMix := 5, distortionDrive := none, chorusRate := none, chorusDepth := none, flangerRate := none, flangerDepth := none, flangerFeedbackAmount := none }
    masterVolume := 55
    maxVolume := none },
  { name := "Acid Bass"
    osc1 := { wave := "sawtooth", detune := 0, level := 100 }
    osc2 := { wave := "square", detune := 0, level := 70 }
    noiseLevel := 0
    octave := 3
    filter := { type := "lowpass", cutoff := 400, resonance := 20, envAmount := 3000, attack := 0.01, decay := 0.4 }
    ampEnv := { attack := 0.01, decay := 0.3, sustain := 0.5, release := 0.2 }
    lfo := { wave := "sine", rate := 8, pitchDepth := 0, filterDepth := 1500, ampDepth := 0 }
    effects := { delayTime := 0.3, delayFeedback := 25, delayMix := 15, reverbMix := 20, distortionDrive := none, chorusRate := none, chorusDepth := none, flangerRate := none, flangerDepth := none, flangerFeedbackAmount := none }
    masterVolume := 50
    maxVolume := none },
  { name := "Wobble Bass"
    osc1 := { wave := "sawtooth", detune := 0, level := 100 }
    osc2 := { wave := "square", detune := -7, level := 80 }
    noiseLevel := 0
    octave := 3
    filter := { type := "lowpass", cutoff := 1500, resonance := 10, envAmount := 0, attack := 0.01, decay := 0.1 }
    ampEnv := { attack := 0.01, decay := 0.1, sustain := 0.9, release := 0.3 }
    lfo := { wave := "square", rate := 4, pitchDepth := 0, filterDepth := 2500, ampDepth := 0 }
    effects := { delayTime := 0.3, delayFeedback := 30, delayMix := 0, reverbMix := 15, distortionDrive := none, chorusRate := none, chorusDepth := none, flangerRate := none, flangerDepth := none, flangerFeedbackAmount := none }
    masterVolume := 50
    maxVolume := none },
  { name := "Punch Bass"
    osc1 := { wave := "triangle", detune := 0, level := 100 }
    osc2 := { wave := "sine", detune := -12, level := 60 }
    noiseLevel := 10
    octave := 3
    filter := { type := "lowpass", cutoff := 600, resonance := 3, envAmount := 800, attack := 0.001, decay := 0.1 }
    ampEnv := { attack := 0.001, decay := 0.15, sustain := 0.6, release := 0.25 }
    lfo := { wave := "sine", rate := 5, pitchDepth := 0, filterDepth := 0, ampDepth := 0 }
    effects := { delayTime := 0.3, delayFeedback := 20, delayMix := 0, reverbMix := 5, distortionDrive := some 0, chorusRate := some 0.5, chorusDepth := some 0, flangerRate := some 0.3, flangerDepth := some 0, flangerFeedbackAmount := some 50 }
    masterVolume := 60
    maxVolume := none },
  { name := "Reese Bass"
    osc1 := { wave := "sawtooth", detune := -7, level := 100 }
    osc2 := { wave := "sawtooth", detune := 7, level := 100 }
    noiseLevel := 0
    octave := 2
    filter := { type := "lowpass", cutoff := 350, resonance := 4, envAmount := 200, attack := 0.02, decay := 0.2 }
    ampEnv := { attack := 0.02, decay := 0.3, sustain := 0.9, release := 0.4 }
    lfo := { wave := "sine", rate := 0.2, pitchDepth := 3, filterDepth := 100, ampDepth := 0 }
    effects := { delayTime := 0.3, delayFeedback := 25, delayMix := 0, reverbMix := 20, distortionDrive := some 15, chorusRate := some 0.3, chorusDepth := some 30, flangerRate := some 0.3, flangerDepth := some 0, flangerFeedbackAmount := some 50 }
    masterVolume := 55
    maxVolume := none },
  { name := "Electro Bass"
    osc1 := { wave := "square", detune := 0, level := 100 }
    osc2 := { wave := "sawtooth", detune := -12, level := 60 }
    noiseLevel := 3
    octave := 3
    filter := { type := "lowpass", cutoff := 500, resonance := 12, envAmount := 1500, attack := 0.001, decay := 0.08 }
    ampEnv := { attack := 0.001, decay := 0.1, sustain := 0.2, release := 0.15 }
    lfo := { wave := "sine", rate := 12, pitchDepth := 0, filterDepth := 800, ampDepth := 0 }
    effects := { delayTime := 0.25, delayFeedback := 30, delayMix := 10, reverbMix := 15, distortionDrive := some 20, chorusRate := some 0.5, chorusDepth := some 0, flangerRate := some 0.3, flangerDepth := some 0, flangerFeedbackAmount := some 50 }
    masterVolume := 55
    maxVolume := none },
  { name := "Growl Bass"
    osc1 := { wave := "sawtooth", detune := 0, level := 100 }
    osc2 := { wave := "square", detune := -5, level := 90 }
    noiseLevel := 8
    octave := 3
    filter := { type := "lowpass", cutoff := 600, resonance := 18, envAmount := 2500, attack := 0.02, decay := 0.25 }
    ampEnv := { attack := 0.01, decay := 0.2, sustain := 0.7, release := 0.3 }
    lfo := { wave := "square", rate := 6, pitchDepth := 10, filterDepth := 2000, ampDepth := 15 }
    effects := { delayTime := 0.3, delayFeedback := 35, delayMix := 5, reverbMix := 10, distortionDrive := some 35, chorusRate := some 0.5, chorusDepth := some 0, flangerRate := some 0.3, flangerDepth := some 0, flangerFeedbackAmount := some 50 }
    masterVolume := 50
    maxVolume := none },
  { name := "Slap Bass"
    osc1 := { wave := "triangle", detune := 0, level := 100 }
    osc2 := { wave := "sine", detune := 0, level := 40 }
    noiseLevel := 20
    octave := 3
    filter := { type := "lowpass", cutoff := 1200, resonance := 5, envAmount := 2000, attack := 0.001, decay := 0.06 }
    ampEnv := { attack := 0.001, decay := 0.08, sustain := 0.4, release := 0.2 }
    lfo := { wave := "sine", rate := 5, pitchDepth := 0, filterDepth := 0, ampDepth := 0 }
    effects := { delayTime := 0.3, delayFeedback := 20, delayMix := 0, reverbMix := 5, distortionDrive := some 10, chorusRate := some 0.5, chorusDepth := some 0, flangerRate := some 0.3, flangerDepth := some 0, flangerFeedbackAmount := some 50 }
    masterVolume := 58
    maxVolume := none },
  { name := "TB-303 Bass"
    osc1 := { wave := "sawtooth", detune := 0, level := 100 }
    osc2 := { wave := "square", detune := 0, level := 50 }
    noiseLevel := 0
    octave := 3
    filter := { type := "lowpass", cutoff := 300, resonance := 22, envAmount := 3500, attack := 0.001, decay := 0.5 }
    ampEnv := { attack := 0.001, decay := 0.4, sustain := 0.4, release := 0.2 }
    lfo := { wave := "sine", rate := 5, pitchDepth := 0, filterDepth := 0, ampDepth := 0 }
    effects := { delayTime := 0.3, delayFeedback := 30, delayMix := 15, reverbMix := 25, distortionDrive := some 8, chorusRate := some 0.5, chorusDepth := some 0, flangerRate := some 0.3, flangerDepth := some 0, flangerFeedbackAmount := some 50 }
    masterVolume := 52
    maxVolume := none },
  { name := "Deep House Bass"
    osc1 := { wave := "sine", detune := 0, level := 100 }
    osc2 := { wave := "triangle", detune := 0, level := 50 }
    noiseLevel := 0
    octave := 2
    filter := { type := "lowpass", cutoff := 180, resonance := 2, envAmount := 100, attack := 0.05, decay := 0.3 }
    ampEnv := { attack := 0.05, decay := 0.4, sustain := 0.7, release := 0.6 }
    lfo := { wave := "sine", rate := 0.5, pitchDepth := 0, filterDepth := 50, ampDepth := 0 }
    effects := { delayTime := 0.5, delayFeedback := 35, delayMix := 10, reverbMix := 30, distortionDrive := some 5, chorusRate := some 0.4, chorusDepth := some 20, flangerRate := some 0.3, flangerDepth := some 0, flangerFeedbackAmount := some 50 }
    masterVolume := 60
    maxVolume := none },
  { name := "Techno Bass"
    osc1 := { wave := "sawtooth", detune := 0, level := 100 }
    osc2 := { wave := "square", detune := 0, level := 70 }
    noiseLevel := 5
    octave := 3
    filter := { type := "lowpass", cutoff := 700, resonance := 8, envAmount := 1000, attack := 0.001, decay := 0.12 }
    ampEnv := { attack := 0.001, decay := 0.15, sustain := 0.5, release := 0.2 }
    lfo := { wave := "sine", rate := 4, pitchDepth := 0, filterDepth := 600, ampDepth := 0 }
    effects := { delayTime := 0.375, delayFeedback := 40, delayMix := 20, reverbMix := 15, distortionDrive := some 25, chorusRate := some 0.5, chorusDepth := some 0, flangerRate := some 0.3, flangerDepth := some 0, flangerFeedbackAmount := some 50 }
    masterVolume := 53
    maxVolume := none },
  { name := "Dubstep Bass"
    osc1 := { wave := "sawtooth", detune := -5, level := 100 }
    osc2 := { wave := "square", detune := 5, level := 100 }
    noiseLevel := 10
    octave := 3
    filter := { type := "lowpass", cutoff := 800, resonance := 15, envAmount := 0, attack := 0.01, decay := 0.1 }
    ampEnv := { attack := 0.01, decay := 0.1, sustain := 0.95, release := 0.3 }
    lfo := { wave := "square", rate := 3, pitchDepth := 0, filterDepth := 3000, ampDepth := 0 }
    effects := { delayTime := 0.3, delayFeedback := 50, delayMix := 15, reverbMix := 30, distortionDrive := some 45, chorusRate := some 0.5, chorusDepth := some 0, flangerRate := some 0.3, flangerDepth := some 0, flangerFeedbackAmount := some 50 }
    masterVolume := 48
    maxVolume := none },
  { name := "Smooth Bass"
    osc1 := { wave := "triangle", detune := 0, level := 100 }
    osc2 := { wave := "sine", detune := -12, level := 80 }
    noiseLevel := 0
    octave := 3
    filter := { type := "lowpass", cutoff := 400, resonance := 1.5, envAmount := 300, attack := 0.08, decay := 0.2 }
    ampEnv := { attack := 0.08, decay := 0.25, sustain := 0.8, release := 0.5 }
    lfo := { wave := "sine", rate := 3, pitchDepth := 5, filterDepth := 150, ampDepth := 0 }
    effects := { delayTime := 0.4, delayFeedback := 25, delayMix := 5, reverbMix := 25, distortionDrive := some 0, chorusRate := some 0.6, chorusDepth := some 35, flangerRate := some 0.3, flangerDepth := some 0, flangerFeedbackAmount := some 50 }
    masterVolume := 55
    maxVolume := none },
  { name := "Distorted Sub"
    osc1 := { wave := "sine", detune := 0, level := 100 }
    osc2 := { wave := "sawtooth", detune := 0, level := 60 }
    noiseLevel := 5
    octave := 2
    filter := { type := "lowpass", cutoff := 250, resonance := 3, envAmount := 0, attack := 0.01, decay := 0.1 }
    ampEnv := { attack := 0.01, decay := 0.2, sustain := 0.9, release := 0.4 }
    lfo := { wave := "sine", rate := 5, pitchDepth := 0, filterDepth := 0, ampDepth := 0 }
    effects := { delayTime := 0.3, delayFeedback := 25, delayMix := 0, reverbMix := 10, distortionDrive := some 40, chorusRate := some 0.5, chorusDepth := some 0, flangerRate := some 0.3, flangerDepth := some 0, flangerFeedbackAmount := some 50 }
    masterVolume := 58
    maxVolume := none },
  { name := "Rubber Bass"
    osc1 := { wave := "sawtooth", detune := 0, level := 100 }
    osc2 := { wave := "triangle", detune := 12, level := 70 }
    noiseLevel := 0
    octave := 3
    filter := { type := "bandpass", cutoff := 600, resonance := 10, envAmount := 1800, attack := 0.01, decay := 0.3 }
    ampEnv := { attack := 0.01, decay := 0.25, sustain := 0.6, release := 0.3 }
    lfo := { wave := "triangle", rate := 8, pitchDepth := 20, filterDepth := 1200, ampDepth := 0 }
    effects := { delayTime := 0.3, delayFeedback := 30, delayMix := 10, reverbMix := 20, distortionDrive := some 15, chorusRate := some 0.5, chorusDepth := some 0, flangerRate := some 0.3, flangerDepth := some 0, flangerFeedbackAmount := some 50 }
    masterVolume := 52
    maxVolume := none },
  { name := "Filtered Bass"
    osc1 := { wave := "square", detune := 0, level := 100 }
    osc2 := { wave := "sawtooth", detune := 5, level := 80 }
    noiseLevel := 3
    octave := 3
    filter := { type := "highpass", cutoff := 150, resonance := 8, envAmount := 800, attack := 0.02, decay := 0.2 }
    ampEnv := { attack := 0.02, decay := 0.2, sustain := 0.7, release := 0.35 }
    lfo := { wave := "sine", rate := 6, pitchDepth := 0, filterDepth := 500, ampDepth := 0 }
    effects := { delayTime := 0.3, delayFeedback := 35, delayMix := 15, reverbMix := 25, distortionDrive := some 18, chorusRate := some 0.5, chorusDepth := some 0, flangerRate := some 0.3, flangerDepth := some 0, flangerFeedbackAmount := some 50 }
    masterVolume := 54
    maxVolume := none },
  { name := "Vintage Bass"
    osc1 := { wave := "sawtooth", detune := 0, level := 100 }
    osc2 := { wave := "square", detune := -3, level := 60 }
    noiseLevel := 8
    octave := 3
    filter := { type := "lowpass", cutoff := 550, resonance := 6, envAmount := 900, attack := 0.01, decay := 0.18 }
    ampEnv := { attack := 0.01, decay := 0.2, sustain := 0.65, release := 0.3 }
    lfo := { wave := "sine", rate := 5, pitchDepth := 0, filterDepth := 0, ampDepth := 0 }
    effects := { delayTime := 0.35, delayFeedback := 28, delayMix := 8, reverbMix := 18, distortionDrive := some 12, chorusRate := some 0.7, chorusDepth := some 25, flangerRate := some 0.3, flangerDepth := some 0, flangerFeedbackAmount := some 50 }
    masterVolume := 56
    maxVolume := none },
  { name := "Massive Bass"
    osc1 := { wave := "sawtooth", detune := -10, level := 100 }
    osc2 := { wave := "sawtooth", detune := 10, level := 100 }
    noiseLevel := 5
    octave := 2
    filter := { type := "lowpass", cutoff := 400, resonance := 5, envAmount := 600, attack := 0.03, decay := 0.3 }
    ampEnv := { attack := 0.03, decay := 0.35, sustain := 0.85, release := 0.5 }
    lfo := { wave := "sine", rate := 0.4, pitchDepth := 8, filterDepth := 200, ampDepth := 5 }
    effects := { delayTime := 0.4, delayFeedback := 30, delayMix := 12, reverbMix := 35, distortionDrive := some 20, chorusRate := some 0.3, chorusDepth := some 40, flangerRate := some 0.3, flangerDepth := some 0, flangerFeedbackAmount := some 50 }
    masterVolume := 52
    maxVolume := none }]

/-- The `lead` category of the built-in preset table (19 patches). -/
def leadPresets : List Preset := [
  { name := "Classic Lead"
    osc1 := { wave := "sawtooth", detune := 0, level := 100 }
    osc2 := { wave := "sawtooth", detune := 7, level := 70 }
    noiseLevel := 0
    octave := 5
    filter := { type := "lowpass", cutoff := 3000, resonance := 5, envAmount := 2000, attack := 0.05, decay := 0.3 }
    ampEnv := { attack := 0.01, decay := 0.2, sustain := 0.7, release := 0.4 }
    lfo := { wave := "sine", rate := 5, pitchDepth := 20, filterDepth := 0, ampDepth := 0 }
    effects := { delayTime := 0.375, delayFeedback := 35, delayMix := 25, reverbMix := 30, distortionDrive := none, chorusRate := none, chorusDepth := none, flangerRate := none, flangerDepth := none, flangerFeedbackAmount := none }
    masterVolume := 50
    maxVolume := none },
  { name := "Square Lead"
    osc1 := { wave := "square", detune := 0, level := 100 }
    osc2 := { wave := "square", detune := -5, level := 80 }
    noiseLevel := 0
    octave := 5
    filter := { type := "lowpass", cutoff := 2500, resonance := 3, envAmount := 1500, attack := 0.08, decay := 0.25 }
    ampEnv := { attack := 0.02, decay := 0.15, sustain := 0.8, release := 0.3 }
    lfo := { wave := "sine", rate := 6, pitchDepth := 15, filterDepth := 0, ampDepth := 0 }
    effects := { delayTime := 0.25, delayFeedback := 40, delayMix := 20, reverbMix := 25, distortionDrive := none, chorusRate := none, chorusDepth := none, flangerRate := none, flangerDepth := none, flangerFeedbackAmount := none }
    masterVolume := 50
    maxVolume := none },
  { name := "Synth Brass"
    osc1 := { wave := "sawtooth", detune := 0, level := 100 }
    osc2 := { wave := "sawtooth", detune := -7, level := 90 }
    noiseLevel := 5
    octave := 4
    filter := { type := "lowpass", cutoff := 2000, resonance := 6, envAmount := 1000, attack := 0.2, decay := 0.3 }
    ampEnv := { attack := 0.15, decay := 0.2, sustain := 0.8, release := 0.5 }
    lfo := { wave := "sine", rate := 4, pitchDepth := 10, filterDepth := 300, ampDepth := 5 }
    effects := { delayTime := 0.3, delayFeedback := 25, delayMix := 15, reverbMix := 35, distortionDrive := none, chorusRate := none, chorusDepth := none, flangerRate := none, flangerDepth := none, flangerFeedbackAmount := none }
    masterVolume := 55
    maxVolume := none },
  { name := "Pluck Lead"
    osc1 := { wave := "sawtooth", detune := 0, level := 100 }
    osc2 := { wave := "triangle", detune := 12, level := 50 }
    noiseLevel := 8
    octave := 5
    filter := { type := "lowpass", cutoff := 4000, resonance := 2, envAmount := 3000, attack := 0.001, decay := 0.15 }
    ampEnv := { attack := 0.001, decay := 0.2, sustain := 0.3, release := 0.2 }
    lfo := { wave := "sine", rate := 5, pitchDepth := 0, filterDepth := 0, ampDepth := 0 }
    effects := { delayTime := 0.5, delayFeedback := 45, delayMix := 35, reverbMix := 40, distortionDrive := none, chorusRate := none, chorusDepth := none, flangerRate := none, flangerDepth := none, flangerFeedbackAmount := none }
    masterVolume := 55
    maxVolume := none },
  { name := "Distorted Lead"
    osc1 := { wave := "square", detune := 0, level := 100 }
    osc2 := { wave := "sawtooth", detune := 14, level := 100 }
    noiseLevel := 3
    octave := 5
    filter := { type := "lowpass", cutoff := 3500, resonance := 15, envAmount := 2500, attack := 0.02, decay := 0.2 }
    ampEnv := { attack := 0.01, decay := 0.1, sustain := 0.9, release := 0.3 }
    lfo := { wave := "sine", rate := 7, pitchDepth := 25, filterDepth := 500, ampDepth := 0 }
    effects := { delayTime := 0.3, delayFeedback := 50, delayMix := 30, reverbMix := 25, distortionDrive := some 0, chorusRate := some 0.5, chorusDepth := some 0, flangerRate := some 0.3, flangerDepth := some 0, flangerFeedbackAmount := some 50 }
    masterVolume := 45
    maxVolume := none },
  { name := "Supersaw Lead"
    osc1 := { wave := "sawtooth", detune := -12, level := 90 }
    osc2 := { wave := "sawtooth", detune := 12, level := 90 }
    noiseLevel := 0
    octave := 5
    filter := { type := "lowpass", cutoff := 3500, resonance := 4, envAmount := 1800, attack := 0.06, decay := 0.25 }
    ampEnv := { attack := 0.02, decay := 0.2, sustain := 0.75, release := 0.4 }
    lfo := { wave := "sine", rate := 5.5, pitchDepth := 18, filterDepth := 400, ampDepth := 0 }
    effects := { delayTime := 0.4, delayFeedback := 38, delayMix := 28, reverbMix := 35, distortionDrive := some 0, chorusRate := some 0.8, chorusDepth := some 45, flangerRate := some 0.3, flangerDepth := some 0, flangerFeedbackAmount := some 50 }
    masterVolume := 48
    maxVolume := none },
  { name := "Trance Lead"
    osc1 := { wave := "sawtooth", detune := 0, level := 100 }
    osc2 := { wave := "square", detune := 7, level := 70 }
    noiseLevel := 0
    octave := 5
    filter := { type := "lowpass", cutoff := 4000, resonance := 8, envAmount := 2500, attack := 0.03, decay := 0.25 }
    ampEnv := { attack := 0.01, decay := 0.15, sustain := 0.8, release := 0.35 }
    lfo := { wave := "sine", rate := 6, pitchDepth := 22, filterDepth := 600, ampDepth := 0 }
    effects := { delayTime := 0.375, delayFeedback := 42, delayMix := 30, reverbMix := 40, distortionDrive := some 8, chorusRate := some 0.5, chorusDepth := some 0, flangerRate := some 0.3, flangerDepth := some 0, flangerFeedbackAmount := some 50 }
    masterVolume := 50
    maxVolume := none },
  { name := "Screamer Lead"
    osc1 := { wave := "sawtooth", detune := 0, level := 100 }
    osc2 := { wave := "square", detune := 5, level := 90 }
    noiseLevel := 5
    octave := 5
    filter := { type := "lowpass", cutoff := 5000, resonance := 18, envAmount := 3000, attack := 0.02, decay := 0.2 }
    ampEnv := { attack := 0.005, decay := 0.1, sustain := 0.9, release := 0.25 }
    lfo := { wave := "sine", rate := 7.5, pitchDepth := 30, filterDepth := 800, ampDepth := 0 }
    effects := { delayTime := 0.3, delayFeedback := 45, delayMix := 25, reverbMix := 30, distortionDrive := some 35, chorusRate := some 0.5, chorusDepth := some 0, flangerRate := some 0.3, flangerDepth := some 0, flangerFeedbackAmount := some 50 }
    masterVolume := 47
    maxVolume := none },
  { name := "Soft Lead"
    osc1 := { wave := "triangle", detune := 0, level := 100 }
    osc2 := { wave := "sine", detune := 12, level := 60 }
    noiseLevel := 0
    octave := 5
    filter := { type := "lowpass", cutoff := 2000, resonance := 2, envAmount := 800, attack := 0.12, decay := 0.3 }
    ampEnv := { attack := 0.08, decay := 0.25, sustain := 0.7, release := 0.5 }
    lfo := { wave := "sine", rate := 4.5, pitchDepth := 12, filterDepth := 200, ampDepth := 0 }
    effects := { delayTime := 0.45, delayFeedback := 35, delayMix := 22, reverbMix := 45, distortionDrive := some 0, chorusRate := some 0.6, chorusDepth := some 38, flangerRate := some 0.3, flangerDepth := some 0, flangerFeedbackAmount := some 50 }
    masterVolume := 52
    maxVolume := none },
  { name := "Techno Stab"
    osc1 := { wave := "sawtooth", detune := 0, level := 100 }
    osc2 := { wave := "square", detune := 0, level := 80 }
    noiseLevel := 8
    octave := 4
    filter := { type := "lowpass", cutoff := 3000, resonance := 12, envAmount := 2200, attack := 0.001, decay := 0.12 }
    ampEnv := { attack := 0.001, decay := 0.15, sustain := 0.4, release := 0.2 }
    lfo := { wave := "sine", rate := 5, pitchDepth := 0, filterDepth := 0, ampDepth := 0 }
    effects := { delayTime := 0.25, delayFeedback := 40, delayMix := 20, reverbMix := 25, distortionDrive := some 22, chorusRate := some 0.5, chorusDepth := some 0, flangerRate := some 0.3, flangerDepth := some 0, flangerFeedbackAmount := some 50 }
    masterVolume := 53
    maxVolume := none },
  { name := "Sync Lead"
    osc1 := { wave := "sawtooth", detune := 0, level := 100 }
    osc2 := { wave := "triangle", detune := 24, level := 70 }
    noiseLevel := 0
    octave := 5
    filter := { type := "lowpass", cutoff := 4500, resonance := 10, envAmount := 2800, attack := 0.04, decay := 0.22 }
    ampEnv := { attack := 0.01, decay := 0.18, sustain := 0.75, release := 0.35 }
    lfo := { wave := "triangle", rate := 8, pitchDepth := 40, filterDepth := 1000, ampDepth := 0 }
    effects := { delayTime := 0.35, delayFeedback := 48, delayMix := 30, reverbMix := 32, distortionDrive := some 15, chorusRate := some 0.5, chorusDepth := some 0, flangerRate := some 0.3, flangerDepth := some 0, flangerFeedbackAmount := some 50 }
    masterVolume := 49
    maxVolume := none },
  { name := "Arpeggio Lead"
    osc1 := { wave := "square", detune := 0, level := 100 }
    osc2 := { wave := "triangle", detune := 12, level := 60 }
    noiseLevel := 5
    octave := 5
    filter := { type := "lowpass", cutoff := 3800, resonance := 6, envAmount := 2000, attack := 0.001, decay := 0.1 }
    ampEnv := { attack := 0.001, decay := 0.12, sustain := 0.5, release := 0.18 }
    lfo := { wave := "sine", rate := 5, pitchDepth := 0, filterDepth := 0, ampDepth := 0 }
    effects := { delayTime := 0.333, delayFeedback := 50, delayMix := 40, reverbMix := 35, distortionDrive := some 0, chorusRate := some 0.5, chorusDepth := some 0, flangerRate := some 0.3, flangerDepth := some 0, flangerFeedbackAmount := some 50 }
    masterVolume := 51
    maxVolume := none },
  { name := "Flanger Lead"
    osc1 := { wave := "sawtooth", detune := 0, level := 100 }
    osc2 := { wave := "sawtooth", detune := 7, level := 80 }
    noiseLevel := 0
    octave := 5
    filter := { type := "lowpass", cutoff := 3200, resonance := 5, envAmount := 1600, attack := 0.05, decay := 0.28 }
    ampEnv := { attack := 0.02, decay := 0.2, sustain := 0.8, release := 0.38 }
    lfo := { wave := "sine", rate := 5.5, pitchDepth := 18, filterDepth := 0, ampDepth := 0 }
    effects := { delayTime := 0.375, delayFeedback := 38, delayMix := 25, reverbMix := 32, distortionDrive := some 0, chorusRate := some 0.5, chorusDepth := some 0, flangerRate := some 0.8, flangerDepth := some 65, flangerFeedbackAmount := some 70 }
    masterVolume := 50
    maxVolume := none },
  { name := "Acid Lead"
    osc1 := { wave := "sawtooth", detune := 0, level := 100 }
    osc2 := { wave := "square", detune := -7, level := 70 }
    noiseLevel := 0
    octave := 5
    filter := { type := "lowpass", cutoff := 1200, resonance := 20, envAmount := 4000, attack := 0.01, decay := 0.35 }
    ampEnv := { attack := 0.01, decay := 0.25, sustain := 0.6, release := 0.3 }
    lfo := { wave := "sine", rate := 9, pitchDepth := 0, filterDepth := 2000, ampDepth := 0 }
    effects := { delayTime := 0.3, delayFeedback := 42, delayMix := 22, reverbMix := 28, distortionDrive := some 18, chorusRate := some 0.5, chorusDepth := some 0, flangerRate := some 0.3, flangerDepth := some 0, flangerFeedbackAmount := some 50 }
    masterVolume := 50
    maxVolume := none },
  { name := "Bright Lead"
    osc1 := { wave := "sawtooth", detune := 0, level := 100 }
    osc2 := { wave := "triangle", detune := 7, level := 50 }
    noiseLevel := 10
    octave := 6
    filter := { type := "lowpass", cutoff := 6000, resonance := 3, envAmount := 2500, attack := 0.02, decay := 0.2 }
    ampEnv := { attack := 0.01, decay := 0.15, sustain := 0.7, release := 0.3 }
    lfo := { wave := "sine", rate := 6, pitchDepth := 20, filterDepth := 400, ampDepth := 0 }
    effects := { delayTime := 0.4, delayFeedback := 40, delayMix := 28, reverbMix := 38, distortionDrive := some 5, chorusRate := some 0.7, chorusDepth := some 35, flangerRate := some 0.3, flangerDepth := some 0, flangerFeedbackAmount := some 50 }
    masterVolume := 48
    maxVolume := none },
  { name := "Gritty Lead"
    osc1 := { wave := "square", detune := 0, level := 100 }
    osc2 := { wave := "sawtooth", detune := 10, level := 95 }
    noiseLevel := 12
    octave := 5
    filter := { type := "lowpass", cutoff := 2800, resonance := 14, envAmount := 2200, attack := 0.02, decay := 0.18 }
    ampEnv := { attack := 0.01, decay := 0.12, sustain := 0.85, release := 0.28 }
    lfo := { wave := "sine", rate := 6.5, pitchDepth := 22, filterDepth := 700, ampDepth := 0 }
    effects := { delayTime := 0.3, delayFeedback := 45, delayMix := 25, reverbMix := 25, distortionDrive := some 42, chorusRate := some 0.5, chorusDepth := some 0, flangerRate := some 0.3, flangerDepth := some 0, flangerFeedbackAmount := some 50 }
    masterVolume := 46
    maxVolume := none },
  { name := "Chorus Lead"
    osc1 := { wave := "sawtooth", detune := -5, level := 85 }
    osc2 := { wave := "sawtooth", detune := 5, level := 85 }
    noiseLevel := 0
    octave := 5
    filter := { type := "lowpass", cutoff := 3200, resonance := 4, envAmount := 1500, attack := 0.05, decay := 0.25 }
    ampEnv := { attack := 0.02, decay := 0.2, sustain := 0.75, release := 0.4 }
    lfo := { wave := "sine", rate := 5, pitchDepth := 15, filterDepth := 300, ampDepth := 0 }
    effects := { delayTime := 0.375, delayFeedback := 35, delayMix := 25, reverbMix := 35, distortionDrive := some 0, chorusRate := some 1.2, chorusDepth := some 55, flangerRate := some 0.3, flangerDepth := some 0, flangerFeedbackAmount := some 50 }
    masterVolume := 50
    maxVolume := none },
  { name := "Monophonic Lead"
    osc1 := { wave := "sawtooth", detune := 0, level := 100 }
    osc2 := { wave := "square", detune := 0, level := 60 }
    noiseLevel := 3
    octave := 5
    filter := { type := "lowpass", cutoff := 2800, resonance := 7, envAmount := 1800, attack := 0.04, decay := 0.22 }
    ampEnv := { attack := 0.02, decay := 0.18, sustain := 0.8, release := 0.32 }
    lfo := { wave := "sine", rate := 5.5, pitchDepth := 18, filterDepth := 500, ampDepth := 0 }
    effects := { delayTime := 0.35, delayFeedback := 38, delayMix := 22, reverbMix := 30, distortionDrive := some 10, chorusRate := some 0.5, chorusDepth := some 0, flangerRate := some 0.3, flangerDepth := some 0, flangerFeedbackAmount := some 50 }
    masterVolume := 51
    maxVolume := none },
  { name := "Detune Lead"
    osc1 := { wave := "sawtooth", detune := -15, level := 90 }
    osc2 := { wave := "sawtooth", detune := 15, level := 90 }
    noiseLevel := 0
    octave := 5
    filter := { type := "lowpass", cutoff := 3600, resonance := 5, envAmount := 2000, attack := 0.05, decay := 0.28 }
    ampEnv := { attack := 0.02, decay := 0.2, sustain := 0.78, release := 0.4 }
    lfo := { wave := "sine", rate := 5, pitchDepth := 20, filterDepth := 450, ampDepth := 0 }
    effects := { delayTime := 0.4, delayFeedback := 40, delayMix := 30, reverbMix := 38, distortionDrive := some 0, chorusRate := some 0.6, chorusDepth := some 42, flangerRate := some 0.3, flangerDepth := some 0, flangerFeedbackAmount := some 50 }
    masterVolume := 49
    maxVolume := none }]

/-- The `pad` category of the built-in preset table (19 patches). -/
def padPresets : List Preset := [
  { name := "Warm Pad"
    osc1 := { wave := "sawtooth", detune := 0, level := 80 }
    osc2 := { wave := "sawtooth", detune := 7, level := 80 }
    noiseLevel := 0
    octave := 4
    filter := { type := "lowpass", cutoff := 1500, resonance := 1, envAmount := 500, attack := 0.8, decay := 0.5 }
    ampEnv := { attack := 0.8, decay := 0.3, sustain := 0.7, release := 1.2 }
    lfo := { wave := "sine", rate := 0.5, pitchDepth := 8, filterDepth := 300, ampDepth := 10 }
    effects := { delayTime := 0.5, delayFeedback := 40, delayMix := 20, reverbMix := 60, distortionDrive := none, chorusRate := none, chorusDepth := none, flangerRate := none, flangerDepth := none, flangerFeedbackAmount := none }
    masterVolume := 40
    maxVolume := none },
  { name := "Strings Pad"
    osc1 := { wave := "sawtooth", detune := -7, level := 70 }
    osc2 := { wave := "sawtooth", detune := 7, level := 70 }
    noiseLevel := 2
    octave := 4
    filter := { type := "lowpass", cutoff := 2000, resonance := 2, envAmount := 800, attack := 1.0, decay := 0.8 }
    ampEnv := { attack := 1.0, decay := 0.5, sustain := 0.8, release := 1.5 }
    lfo := { wave := "sine", rate := 0.3, pitchDepth := 5, filterDepth := 200, ampDepth := 8 }
    effects := { delayTime := 0.4, delayFeedback := 35, delayMix := 15, reverbMix := 70, distortionDrive := none, chorusRate := none, chorusDepth := none, flangerRate := none, flangerDepth := none, flangerFeedbackAmount := none }
    masterVolume := 45
    maxVolume := none },
  { name := "Choir Pad"
    osc1 := { wave := "sine", detune := 0, level := 90 }
    osc2 := { wave := "triangle", detune := 12, level := 60 }
    noiseLevel := 3
    octave := 5
    filter := { type := "lowpass", cutoff := 2500, resonance := 1.5, envAmount := 600, attack := 1.2, decay := 0.6 }
    ampEnv := { attack := 1.2, decay := 0.4, sustain := 0.75, release := 1.8 }
    lfo := { wave := "sine", rate := 0.4, pitchDepth := 12, filterDepth := 400, ampDepth := 12 }
    effects := { delayTime := 0.6, delayFeedback := 45, delayMix := 25, reverbMix := 75, distortionDrive := none, chorusRate := none, chorusDepth := none, flangerRate := none, flangerDepth := none, flangerFeedbackAmount := none }
    masterVolume := 40
    maxVolume := none },
  { name := "Dark Pad"
    osc1 := { wave := "triangle", detune := 0, level := 100 }
    osc2 := { wave := "sine", detune := -12, level := 70 }
    noiseLevel := 5
    octave := 3
    filter := { type := "lowpass", cutoff := 800, resonance := 3, envAmount := 200, attack := 1.5, decay := 1.0 }
    ampEnv := { attack := 1.5, decay := 0.6, sustain := 0.7, release := 2.0 }
    lfo := { wave := "triangle", rate := 0.2, pitchDepth := 3, filterDepth := 150, ampDepth := 15 }
    effects := { delayTime := 0.7, delayFeedback := 50, delayMix := 30, reverbMix := 80, distortionDrive := none, chorusRate := none, chorusDepth := none, flangerRate := none, flangerDepth := none, flangerFeedbackAmount := none }
    masterVolume := 45
    maxVolume := none },
  { name := "Shimmer Pad"
    osc1 := { wave := "sine", detune := 0, level := 80 }
    osc2 := { wave := "triangle", detune := 24, level := 60 }
    noiseLevel := 8
    octave := 5
    filter := { type := "bandpass", cutoff := 3000, resonance := 5, envAmount := 1000, attack := 0.9, decay := 0.7 }
    ampEnv := { attack := 0.9, decay := 0.5, sustain := 0.6, release := 1.5 }
    lfo := { wave := "sine", rate := 2, pitchDepth := 20, filterDepth := 800, ampDepth := 20 }
    effects := { delayTime := 0.5, delayFeedback := 60, delayMix := 40, reverbMix := 85, distortionDrive := some 0, chorusRate := some 0.5, chorusDepth := some 0, flangerRate := some 0.3, flangerDepth := some 0, flangerFeedbackAmount := some 50 }
    masterVolume := 40
    maxVolume := none },
  { name := "Lush Pad"
    osc1 := { wave := "sawtooth", detune := -10, level := 75 }
    osc2 := { wave := "sawtooth", detune := 10, level := 75 }
    noiseLevel := 3
    octave := 4
    filter := { type := "lowpass", cutoff := 1800, resonance := 2, envAmount := 600, attack := 0.9, decay := 0.6 }
    ampEnv := { attack := 0.9, decay := 0.4, sustain := 0.75, release := 1.4 }
    lfo := { wave := "sine", rate := 0.6, pitchDepth := 10, filterDepth := 350, ampDepth := 12 }
    effects := { delayTime := 0.55, delayFeedback := 42, delayMix := 22, reverbMix := 68, distortionDrive := some 0, chorusRate := some 0.4, chorusDepth := some 50, flangerRate := some 0.3, flangerDepth := some 0, flangerFeedbackAmount := some 50 }
    masterVolume := 42
    maxVolume := none },
  { name := "Ambient Pad"
    osc1 := { wave := "sine", detune := 0, level := 85 }
    osc2 := { wave := "triangle", detune := 19, level := 70 }
    noiseLevel := 10
    octave := 4
    filter := { type := "lowpass", cutoff := 2200, resonance := 1.8, envAmount := 700, attack := 1.3, decay := 0.8 }
    ampEnv := { attack := 1.3, decay := 0.5, sustain := 0.72, release := 1.9 }
    lfo := { wave := "sine", rate := 0.35, pitchDepth := 8, filterDepth := 300, ampDepth := 15 }
    effects := { delayTime := 0.65, delayFeedback := 48, delayMix := 32, reverbMix := 78, distortionDrive := some 0, chorusRate := some 0.5, chorusDepth := some 0, flangerRate := some 0.3, flangerDepth := some 0, flangerFeedbackAmount := some 50 }
    masterVolume := 41
    maxVolume := none },
  { name := "Analog Pad"
    osc1 := { wave := "sawtooth", detune := 0, level := 80 }
    osc2 := { wave := "square", detune := 5, level := 70 }
    noiseLevel := 6
    octave := 4
    filter := { type := "lowpass", cutoff := 1600, resonance := 2.5, envAmount := 550, attack := 0.85, decay := 0.55 }
    ampEnv := { attack := 0.85, decay := 0.35, sustain := 0.75, release := 1.3 }
    lfo := { wave := "triangle", rate := 0.45, pitchDepth := 6, filterDepth := 250, ampDepth := 10 }
    effects := { delayTime := 0.48, delayFeedback := 38, delayMix := 18, reverbMix := 62, distortionDrive := some 8, chorusRate := some 0.6, chorusDepth := some 30, flangerRate := some 0.3, flangerDepth := some 0, flangerFeedbackAmount := some 50 }
    masterVolume := 43
    maxVolume := none },
  { name := "Evolving Pad"
    osc1 := { wave := "sawtooth", detune := -8, level := 75 }
    osc2 := { wave := "triangle", detune := 8, level := 75 }
    noiseLevel := 5
    octave := 4
    filter := { type := "lowpass", cutoff := 1900, resonance := 3, envAmount := 900, attack := 1.1, decay := 0.9 }
    ampEnv := { attack := 1.1, decay := 0.6, sustain := 0.7, release := 1.7 }
    lfo := { wave := "sine", rate := 0.25, pitchDepth := 12, filterDepth := 600, ampDepth := 18 }
    effects := { delayTime := 0.6, delayFeedback := 50, delayMix := 28, reverbMix := 72, distortionDrive := some 0, chorusRate := some 0.5, chorusDepth := some 0, flangerRate := some 0.2, flangerDepth := some 35, flangerFeedbackAmount := some 60 }
    masterVolume := 41
    maxVolume := none },
  { name := "Crystal Pad"
    osc1 := { wave := "sine", detune := 0, level := 90 }
    osc2 := { wave := "triangle", detune := 12, level := 65 }
    noiseLevel := 12
    octave := 5
    filter := { type := "highpass", cutoff := 400, resonance := 4, envAmount := 800, attack := 1.0, decay := 0.7 }
    ampEnv := { attack := 1.0, decay := 0.45, sustain := 0.68, release := 1.6 }
    lfo := { wave := "sine", rate := 1.5, pitchDepth := 18, filterDepth := 600, ampDepth := 22 }
    effects := { delayTime := 0.52, delayFeedback := 55, delayMix := 38, reverbMix := 82, distortionDrive := some 0, chorusRate := some 0.8, chorusDepth := some 45, flangerRate := some 0.3, flangerDepth := some 0, flangerFeedbackAmount := some 50 }
    masterVolume := 39
    maxVolume := none },
  { name := "Sweep Pad"
    osc1 := { wave := "sawtooth", detune := 0, level := 85 }
    osc2 := { wave := "square", detune := 7, level := 75 }
    noiseLevel := 4
    octave := 4
    filter := { type := "lowpass", cutoff := 1200, resonance := 6, envAmount := 1500, attack := 1.4, decay := 1.2 }
    ampEnv := { attack := 1.0, decay := 0.5, sustain := 0.73, release := 1.5 }
    lfo := { wave := "triangle", rate := 0.3, pitchDepth := 5, filterDepth := 800, ampDepth := 0 }
    effects := { delayTime := 0.58, delayFeedback := 45, delayMix := 25, reverbMix := 70, distortionDrive := some 0, chorusRate := some 0.5, chorusDepth := some 0, flangerRate := some 0.3, flangerDepth := some 0, flangerFeedbackAmount := some 50 }
    masterVolume := 42
    maxVolume := none },
  { name := "Dream Pad"
    osc1 := { wave := "sine", detune := 0, level := 80 }
    osc2 := { wave := "sine", detune := 7, level := 80 }
    noiseLevel := 8
    octave := 5
    filter := { type := "lowpass", cutoff := 2800, resonance := 2, envAmount := 650, attack := 1.2, decay := 0.7 }
    ampEnv := { attack := 1.2, decay := 0.5, sustain := 0.7, release := 1.8 }
    lfo := { wave := "sine", rate := 0.5, pitchDepth := 15, filterDepth := 400, ampDepth := 15 }
    effects := { delayTime := 0.62, delayFeedback := 52, delayMix := 35, reverbMix := 80, distortionDrive := some 0, chorusRate := some 0.7, chorusDepth := some 50, flangerRate := some 0.3, flangerDepth := some 0, flangerFeedbackAmount := some 50 }
    masterVolume := 40
    maxVolume := none },
  { name := "Ethereal Pad"
    osc1 := { wave := "triangle", detune := 0, level := 85 }
    osc2 := { wave := "sine", detune := 24, level := 70 }
    noiseLevel := 15
    octave := 5
    filter := { type := "bandpass", cutoff := 2500, resonance := 6, envAmount := 1100, attack := 1.0, decay := 0.8 }
    ampEnv := { attack := 1.0, decay := 0.55, sustain := 0.65, release := 1.7 }
    lfo := { wave := "sine", rate := 1.8, pitchDepth := 22, filterDepth := 900, ampDepth := 25 }
    effects := { delayTime := 0.55, delayFeedback := 58, delayMix := 42, reverbMix := 88, distortionDrive := some 0, chorusRate := some 0.5, chorusDepth := some 0, flangerRate := some 0.5, flangerDepth := some 48, flangerFeedbackAmount := some 65 }
    masterVolume := 38
    maxVolume := none },
  { name := "Soft Pad"
    osc1 := { wave := "triangle", detune := 0, level := 90 }
    osc2 := { wave := "sine", detune := 12, level := 75 }
    noiseLevel := 2
    octave := 4
    filter := { type := "lowpass", cutoff := 1700, resonance := 1.5, envAmount := 450, attack := 0.95, decay := 0.5 }
    ampEnv := { attack := 0.95, decay := 0.35, sustain := 0.78, release := 1.4 }
    lfo := { wave := "sine", rate := 0.4, pitchDepth := 6, filterDepth := 200, ampDepth := 8 }
    effects := { delayTime := 0.5, delayFeedback := 40, delayMix := 20, reverbMix := 65, distortionDrive := some 0, chorusRate := some 0.6, chorusDepth := some 35, flangerRate := some 0.3, flangerDepth := some 0, flangerFeedbackAmount := some 50 }
    masterVolume := 43
    maxVolume := none },
  { name := "Digital Pad"
    osc1 := { wave := "square", detune := 0, level := 80 }
    osc2 := { wave := "triangle", detune := 19, level := 70 }
    noiseLevel := 8
    octave := 4
    filter := { type := "lowpass", cutoff := 2400, resonance := 4, envAmount := 850, attack := 0.88, decay := 0.65 }
    ampEnv := { attack := 0.88, decay := 0.4, sustain := 0.72, release := 1.35 }
    lfo := { wave := "square", rate := 0.8, pitchDepth := 10, filterDepth := 500, ampDepth := 20 }
    effects := { delayTime := 0.48, delayFeedback := 44, delayMix := 26, reverbMix := 68, distortionDrive := some 5, chorusRate := some 0.5, chorusDepth := some 0, flangerRate := some 0.3, flangerDepth := some 0, flangerFeedbackAmount := some 50 }
    masterVolume := 42
    maxVolume := none },
  { name := "Glass Pad"
    osc1 := { wave := "sine", detune := 0, level := 85 }
    osc2 := { wave := "triangle", detune := 31, level := 60 }
    noiseLevel := 18
    octave := 6
    filter := { type := "highpass", cutoff := 600, resonance := 5, envAmount := 900, attack := 0.92, decay := 0.68 }
    ampEnv := { attack := 0.92, decay := 0.48, sustain := 0.62, release := 1.55 }
    lfo := { wave := "sine", rate := 2.2, pitchDepth := 25, filterDepth := 700, ampDepth := 28 }
    effects := { delayTime := 0.5, delayFeedback := 62, delayMix := 45, reverbMix := 85, distortionDrive := some 0, chorusRate := some 0.9, chorusDepth := some 52, flangerRate := some 0.3, flangerDepth := some 0, flangerFeedbackAmount := some 50 }
    masterVolume := 38
    maxVolume := none },
  { name := "Texture Pad"
    osc1 := { wave := "sawtooth", detune := -12, level := 75 }
    osc2 := { wave := "square", detune := 12, level := 75 }
    noiseLevel := 10
    octave := 3
    filter := { type := "lowpass", cutoff := 1400, resonance := 3.5, envAmount := 600, attack := 1.2, decay := 0.9 }
    ampEnv := { attack := 1.2, decay := 0.55, sustain := 0.7, release := 1.8 }
    lfo := { wave := "triangle", rate := 0.35, pitchDepth := 8, filterDepth := 400, ampDepth := 18 }
    effects := { delayTime := 0.68, delayFeedback := 48, delayMix := 28, reverbMix := 75, distortionDrive := some 12, chorusRate := some 0.5, chorusDepth := some 0, flangerRate := some 0.3, flangerDepth := some 0, flangerFeedbackAmount := some 50 }
    masterVolume := 42
    maxVolume := none },
  { name := "Metallic Pad"
    osc1 := { wave := "square", detune := 0, level := 80 }
    osc2 := { wave := "triangle", detune := 24, level := 70 }
    noiseLevel := 12
    octave := 5
    filter := { type := "bandpass", cutoff := 2800, resonance := 8, envAmount := 1200, attack := 0.95, decay := 0.75 }
    ampEnv := { attack := 0.95, decay := 0.5, sustain := 0.68, release := 1.6 }
    lfo := { wave := "sine", rate := 1.2, pitchDepth := 16, filterDepth := 700, ampDepth := 22 }
    effects := { delayTime := 0.52, delayFeedback := 54, delayMix := 35, reverbMix := 78, distortionDrive := some 0, chorusRate := some 0.5, chorusDepth := some 0, flangerRate := some 0.6, flangerDepth := some 58, flangerFeedbackAmount := some 75 }
    masterVolume := 40
    maxVolume := none },
  { name := "Space Pad"
    osc1 := { wave := "sine", detune := 0, level := 88 }
    osc2 := { wave := "triangle", detune := 19, level := 72 }
    noiseLevel := 20
    octave := 4
    filter := { type := "lowpass", cutoff := 2600, resonance := 2.5, envAmount := 750, attack := 1.4, decay := 0.95 }
    ampEnv := { attack := 1.4, decay := 0.6, sustain := 0.72, release := 2.0 }
    lfo := { wave := "sine", rate := 0.28, pitchDepth := 10, filterDepth := 500, ampDepth := 20 }
    effects := { delayTime := 0.72, delayFeedback := 56, delayMix := 38, reverbMix := 90, distortionDrive := some 0, chorusRate := some 0.5, chorusDepth := some 0, flangerRate := some 0.25, flangerDepth := some 42, flangerFeedbackAmount := some 55 }
    masterVolume := 39
    maxVolume := none }]

/-- The `fx` category of the built-in preset table (19 patches). -/
def fxPresets : List Preset := [
  { name := "Laser Zap"
    osc1 := { wave := "square", detune := 0, level := 100 }
    osc2 := { wave := "sawtooth", detune := 7, level := 80 }
    noiseLevel := 15
    octave := 6
    filter := { type := "bandpass", cutoff := 5000, resonance := 20, envAmount := -4000, attack := 0.001, decay := 0.3 }
    ampEnv := { attack := 0.001, decay := 0.4, sustain := 0.2, release := 0.3 }
    lfo := { wave := "sawtooth", rate := 15, pitchDepth := 100, filterDepth := 3000, ampDepth := 0 }
    effects := { delayTime := 0.15, delayFeedback := 60, delayMix := 40, reverbMix := 50, distortionDrive := none, chorusRate := none, chorusDepth := none, flangerRate := none, flangerDepth := none, flangerFeedbackAmount := none }
    masterVolume := 50
    maxVolume := none },
  { name := "Space Sweep"
    osc1 := { wave := "sine", detune := 0, level := 90 }
    osc2 := { wave := "triangle", detune := 19, level := 70 }
    noiseLevel := 20
    octave := 5
    filter := { type := "highpass", cutoff := 200, resonance := 8, envAmount := 3000, attack := 2.0, decay := 1.5 }
    ampEnv := { attack := 0.5, decay := 1.0, sustain := 0.5, release := 2.0 }
    lfo := { wave := "sine", rate := 0.3, pitchDepth := 50, filterDepth := 2000, ampDepth := 30 }
    effects := { delayTime := 0.8, delayFeedback := 70, delayMix := 60, reverbMix := 90, distortionDrive := none, chorusRate := none, chorusDepth := none, flangerRate := none, flangerDepth := none, flangerFeedbackAmount := none }
    masterVolume := 45
    maxVolume := none },
  { name := "Robot Voice"
    osc1 := { wave := "square", detune := 0, level := 100 }
    osc2 := { wave := "square", detune := -24, level := 100 }
    noiseLevel := 25
    octave := 4
    filter := { type := "bandpass", cutoff := 1500, resonance := 15, envAmount := 0, attack := 0.01, decay := 0.1 }
    ampEnv := { attack := 0.01, decay := 0.1, sustain := 0.8, release := 0.2 }
    lfo := { wave := "square", rate := 8, pitchDepth := 0, filterDepth := 1000, ampDepth := 50 }
    effects := { delayTime := 0.2, delayFeedback := 50, delayMix := 30, reverbMix := 40, distortionDrive := none, chorusRate := none, chorusDepth := none, flangerRate := none, flangerDepth := none, flangerFeedbackAmount := none }
    masterVolume := 50
    maxVolume := none },
  { name := "Wind Noise"
    osc1 := { wave := "sine", detune := 0, level := 30 }
    osc2 := { wave := "triangle", detune := 12, level := 30 }
    noiseLevel := 100
    octave := 3
    filter := { type := "bandpass", cutoff := 2000, resonance := 5, envAmount := 0, attack := 0.5, decay := 0.5 }
    ampEnv := { attack := 2.0, decay := 1.0, sustain := 0.7, release := 2.5 }
    lfo := { wave := "sine", rate := 0.5, pitchDepth := 0, filterDepth := 1500, ampDepth := 40 }
    effects := { delayTime := 0.6, delayFeedback := 60, delayMix := 40, reverbMix := 85, distortionDrive := none, chorusRate := none, chorusDepth := none, flangerRate := none, flangerDepth := none, flangerFeedbackAmount := none }
    masterVolume := 45
    maxVolume := none },
  { name := "Glitch Hit"
    osc1 := { wave := "square", detune := 0, level := 100 }
    osc2 := { wave := "sawtooth", detune := 31, level := 100 }
    noiseLevel := 40
    octave := 5
    filter := { type := "notch", cutoff := 3000, resonance := 25, envAmount := -2000, attack := 0.001, decay := 0.05 }
    ampEnv := { attack := 0.001, decay := 0.08, sustain := 0.1, release := 0.15 }
    lfo := { wave := "square", rate := 20, pitchDepth := 200, filterDepth := 4000, ampDepth := 80 }
    effects := { delayTime := 0.1, delayFeedback := 80, delayMix := 50, reverbMix := 60, distortionDrive := some 0, chorusRate := some 0.5, chorusDepth := some 0, flangerRate := some 0.3, flangerDepth := some 0, flangerFeedbackAmount := some 50 }
    masterVolume := 50
    maxVolume := none },
  { name := "Sci-Fi Riser"
    osc1 := { wave := "sawtooth", detune := 0, level := 100 }
    osc2 := { wave := "square", detune := 12, level := 80 }
    noiseLevel := 25
    octave := 4
    filter := { type := "lowpass", cutoff := 800, resonance := 10, envAmount := 4500, attack := 2.5, decay := 0.5 }
    ampEnv := { attack := 2.0, decay := 0.5, sustain := 0.8, release := 1.5 }
    lfo := { wave := "sine", rate := 0.2, pitchDepth := 80, filterDepth := 2500, ampDepth := 0 }
    effects := { delayTime := 0.4, delayFeedback := 65, delayMix := 45, reverbMix := 70, distortionDrive := some 15, chorusRate := some 0.5, chorusDepth := some 0, flangerRate := some 0.3, flangerDepth := some 0, flangerFeedbackAmount := some 50 }
    masterVolume := 47
    maxVolume := none },
  { name := "Impact Hit"
    osc1 := { wave := "sine", detune := 0, level := 100 }
    osc2 := { wave := "triangle", detune := -12, level := 80 }
    noiseLevel := 60
    octave := 2
    filter := { type := "lowpass", cutoff := 150, resonance := 8, envAmount := 1000, attack := 0.001, decay := 0.15 }
    ampEnv := { attack := 0.001, decay := 0.2, sustain := 0.3, release := 0.5 }
    lfo := { wave := "sine", rate := 5, pitchDepth := 0, filterDepth := 0, ampDepth := 0 }
    effects := { delayTime := 0.3, delayFeedback := 40, delayMix := 25, reverbMix := 60, distortionDrive := some 35, chorusRate := some 0.5, chorusDepth := some 0, flangerRate := some 0.3, flangerDepth := some 0, flangerFeedbackAmount := some 50 }
    masterVolume := 60
    maxVolume := none },
  { name := "Sweep Down"
    osc1 := { wave := "sawtooth", detune := 0, level := 100 }
    osc2 := { wave := "triangle", detune := 7, level := 70 }
    noiseLevel := 15
    octave := 5
    filter := { type := "lowpass", cutoff := 8000, resonance := 12, envAmount := -6000, attack := 0.01, decay := 1.5 }
    ampEnv := { attack := 0.01, decay := 1.2, sustain := 0.4, release := 0.8 }
    lfo := { wave := "sine", rate := 0.5, pitchDepth := -40, filterDepth := -1500, ampDepth := 0 }
    effects := { delayTime := 0.35, delayFeedback := 55, delayMix := 35, reverbMix := 65, distortionDrive := some 0, chorusRate := some 0.5, chorusDepth := some 0, flangerRate := some 0.3, flangerDepth := some 0, flangerFeedbackAmount := some 50 }
    masterVolume := 48
    maxVolume := none },
  { name := "Alarm Siren"
    osc1 := { wave := "square", detune := 0, level := 100 }
    osc2 := { wave := "square", detune := 12, level := 80 }
    noiseLevel := 0
    octave := 5
    filter := { type := "bandpass", cutoff := 2000, resonance := 15, envAmount := 0, attack := 0.01, decay := 0.1 }
    ampEnv := { attack := 0.01, decay := 0.1, sustain := 0.9, release := 0.2 }
    lfo := { wave := "triangle", rate := 4, pitchDepth := 200, filterDepth := 1500, ampDepth := 0 }
    effects := { delayTime := 0.25, delayFeedback := 50, delayMix := 30, reverbMix := 40, distortionDrive := some 20, chorusRate := some 0.5, chorusDepth := some 0, flangerRate := some 0.3, flangerDepth := some 0, flangerFeedbackAmount := some 50 }
    masterVolume := 52
    maxVolume := none },
  { name := "Radio Static"
    osc1 := { wave := "square", detune := 0, level := 40 }
    osc2 := { wave := "sawtooth", detune := 24, level := 40 }
    noiseLevel := 90
    octave := 5
    filter := { type := "bandpass", cutoff := 3500, resonance := 12, envAmount := 0, attack := 0.1, decay := 0.2 }
    ampEnv := { attack := 0.1, decay := 0.3, sustain := 0.85, release := 0.4 }
    lfo := { wave := "square", rate := 10, pitchDepth := 0, filterDepth := 2000, ampDepth := 60 }
    effects := { delayTime := 0.15, delayFeedback := 45, delayMix := 25, reverbMix := 35, distortionDrive := some 30, chorusRate := some 0.5, chorusDepth := some 0, flangerRate := some 0.3, flangerDepth := some 0, flangerFeedbackAmount := some 50 }
    masterVolume := 48
    maxVolume := none },
  { name := "Underwater"
    osc1 := { wave := "sine", detune := 0, level := 85 }
    osc2 := { wave := "triangle", detune := 5, level := 75 }
    noiseLevel := 30
    octave := 3
    filter := { type := "lowpass", cutoff := 600, resonance := 6, envAmount := 400, attack := 1.0, decay := 0.8 }
    ampEnv := { attack := 0.5, decay := 0.8, sustain := 0.7, release := 1.5 }
    lfo := { wave := "sine", rate := 0.4, pitchDepth := 15, filterDepth := 300, ampDepth := 25 }
    effects := { delayTime := 0.55, delayFeedback := 60, delayMix := 50, reverbMix := 85, distortionDrive := some 0, chorusRate := some 0.3, chorusDepth := some 45, flangerRate := some 0.3, flangerDepth := some 0, flangerFeedbackAmount := some 50 }
    masterVolume := 45
    maxVolume := none },
  { name := "Transmission"
    osc1 := { wave := "square", detune := 0, level := 80 }
    osc2 := { wave := "sawtooth", detune := 19, level := 70 }
    noiseLevel := 45
    octave := 5
    filter := { type := "bandpass", cutoff := 2800, resonance := 18, envAmount := 0, attack := 0.05, decay := 0.1 }
    ampEnv := { attack := 0.05, decay := 0.15, sustain := 0.7, release := 0.3 }
    lfo := { wave := "square", rate := 12, pitchDepth := 50, filterDepth := 1800, ampDepth := 70 }
    effects := { delayTime := 0.18, delayFeedback := 55, delayMix := 35, reverbMix := 45, distortionDrive := some 38, chorusRate := some 0.5, chorusDepth := some 0, flangerRate := some 0.3, flangerDepth := some 0, flangerFeedbackAmount := some 50 }
    masterVolume := 48
    maxVolume := none },
  { name := "Thunderstorm"
    osc1 := { wave := "sine", detune := 0, level := 70 }
    osc2 := { wave := "triangle", detune := -12, level := 60 }
    noiseLevel := 80
    octave := 2
    filter := { type := "lowpass", cutoff := 500, resonance := 4, envAmount := 300, attack := 0.8, decay := 1.2 }
    ampEnv := { attack := 0.3, decay := 1.5, sustain := 0.6, release := 2.0 }
    lfo := { wave := "sine", rate := 0.2, pitchDepth := 10, filterDepth := 200, ampDepth := 35 }
    effects := { delayTime := 0.65, delayFeedback := 65, delayMix := 45, reverbMix := 88, distortionDrive := some 10, chorusRate := some 0.5, chorusDepth := some 0, flangerRate := some 0.3, flangerDepth := some 0, flangerFeedbackAmount := some 50 }
    masterVolume := 46
    maxVolume := none },
  { name := "Digital Glitch"
    osc1 := { wave := "square", detune := 0, level := 100 }
    osc2 := { wave := "sawtooth", detune := 36, level := 90 }
    noiseLevel := 50
    octave := 6
    filter := { type := "notch", cutoff := 4000, resonance := 20, envAmount := -3000, attack := 0.001, decay := 0.04 }
    ampEnv := { attack := 0.001, decay := 0.05, sustain := 0.15, release := 0.1 }
    lfo := { wave := "square", rate := 25, pitchDepth := 300, filterDepth := 5000, ampDepth := 90 }
    effects := { delayTime := 0.08, delayFeedback := 75, delayMix := 55, reverbMix := 55, distortionDrive := some 45, chorusRate := some 0.5, chorusDepth := some 0, flangerRate := some 0.3, flangerDepth := some 0, flangerFeedbackAmount := some 50 }
    masterVolume := 48
    maxVolume := none },
  { name := "Helicopter"
    osc1 := { wave := "sawtooth", detune := 0, level := 70 }
    osc2 := { wave := "square", detune := -5, level := 60 }
    noiseLevel := 70
    octave := 2
    filter := { type := "bandpass", cutoff := 800, resonance := 8, envAmount := 0, attack := 0.1, decay := 0.2 }
    ampEnv := { attack := 0.1, decay := 0.2, sustain := 0.9, release := 0.5 }
    lfo := { wave := "square", rate := 8, pitchDepth := 0, filterDepth := 600, ampDepth := 50 }
    effects := { delayTime := 0.22, delayFeedback := 60, delayMix := 35, reverbMix := 50, distortionDrive := some 25, chorusRate := some 0.5, chorusDepth := some 0, flangerRate := some 1.2, flangerDepth := some 55, flangerFeedbackAmount := some 70 }
    masterVolume := 50
    maxVolume := none },
  { name := "Cosmic Ray"
    osc1 := { wave := "sine", detune := 0, level := 90 }
    osc2 := { wave := "triangle", detune := 31, level := 75 }
    noiseLevel := 35
    octave := 6
    filter := { type := "highpass", cutoff := 1000, resonance := 15, envAmount := 3500, attack := 0.02, decay := 0.8 }
    ampEnv := { attack := 0.02, decay := 0.9, sustain := 0.3, release := 1.2 }
    lfo := { wave := "sawtooth", rate := 12, pitchDepth := 150, filterDepth := 2500, ampDepth := 40 }
    effects := { delayTime := 0.3, delayFeedback := 70, delayMix := 55, reverbMix := 80, distortionDrive := some 0, chorusRate := some 0.5, chorusDepth := some 0, flangerRate := some 0.8, flangerDepth := some 65, flangerFeedbackAmount := some 75 }
    masterVolume := 46
    maxVolume := none },
  { name := "Steam Vent"
    osc1 := { wave := "triangle", detune := 0, level := 50 }
    osc2 := { wave := "sine", detune := 7, level := 40 }
    noiseLevel := 95
    octave := 4
    filter := { type := "highpass", cutoff := 2000, resonance := 6, envAmount := 1500, attack := 0.3, decay := 0.6 }
    ampEnv := { attack := 0.3, decay := 0.8, sustain := 0.75, release := 1.0 }
    lfo := { wave := "sine", rate := 0.6, pitchDepth := 0, filterDepth := 800, ampDepth := 30 }
    effects := { delayTime := 0.4, delayFeedback := 50, delayMix := 30, reverbMix := 70, distortionDrive := some 15, chorusRate := some 0.5, chorusDepth := some 0, flangerRate := some 0.3, flangerDepth := some 0, flangerFeedbackAmount := some 50 }
    masterVolume := 47
    maxVolume := none },
  { name := "Alien Voice"
    osc1 := { wave := "square", detune := 0, level := 90 }
    osc2 := { wave := "sawtooth", detune := -19, level := 85 }
    noiseLevel := 30
    octave := 4
    filter := { type := "bandpass", cutoff := 1200, resonance := 18, envAmount := 2000, attack := 0.08, decay := 0.3 }
    ampEnv := { attack := 0.05, decay := 0.25, sustain := 0.65, release := 0.4 }
    lfo := { wave := "triangle", rate := 6, pitchDepth := 80, filterDepth := 1500, ampDepth := 40 }
    effects := { delayTime := 0.28, delayFeedback := 58, delayMix := 40, reverbMix := 55, distortionDrive := some 22, chorusRate := some 0.9, chorusDepth := some 48, flangerRate := some 0.3, flangerDepth := some 0, flangerFeedbackAmount := some 50 }
    masterVolume := 49
    maxVolume := none },
  { name := "Electric Buzz"
    osc1 := { wave := "square", detune := 0, level := 100 }
    osc2 := { wave := "square", detune := 1, level := 95 }
    noiseLevel := 20
    octave := 5
    filter := { type := "bandpass", cutoff := 3000, resonance := 22, envAmount := 0, attack := 0.01, decay := 0.05 }
    ampEnv := { attack := 0.01, decay := 0.05, sustain := 0.95, release := 0.15 }
    lfo := { wave := "square", rate := 18, pitchDepth := 10, filterDepth := 2000, ampDepth := 75 }
    effects := { delayTime := 0.12, delayFeedback := 65, delayMix := 35, reverbMix := 40, distortionDrive := some 40, chorusRate := some 0.5, chorusDepth := some 0, flangerRate := some 0.3, flangerDepth := some 0, flangerFeedbackAmount := some 50 }
    masterVolume := 50
    maxVolume := none }]

/-- All built-in presets, in table order. -/
def builtinPresets : List Preset :=
  bassPresets ++ leadPresets ++ padPresets ++ fxPresets

/-! ## Theorems -/

/-- C3: for every table note name and every integer octave,
`getFrequency` equals the table value times `2^(octave-4)` and hence
equals the octave-4 value rescaled; the MIDI path maps note 69 to
exactly 440 Hz and note 81 to 880 Hz (well within 0.01 Hz), and agrees
with the manual path at A4. -/
theorem frequency_resolution_correct :
    (∀ (note : NoteName) (octave : ℤ),
        getFrequency note octave = noteFrequencies note * (2 : ℚ) ^ (octave - 4) ∧
        getFrequency note octave = getFrequency note 4 * (2 : ℚ) ^ (octave - 4)) ∧
    midiNoteFrequency 69 = 440 ∧
    midiNoteFrequency 81 = 880 ∧
    |midiNoteFrequency 81 - 880| ≤ 0.01 ∧
    midiNoteFrequency 69 = ((getFrequency NoteName.A 4 : ℚ) : ℝ) := by
  have h69 : midiNoteFrequency 69 = 440 := by
    have h : (((69 : ℕ) : ℝ) - 69) / 12 = 0 := by norm_num
    rw [midiNoteFrequency, h, Real.rpow_zero, mul_one]
  have h81 : midiNoteFrequency 81 = 880 := by
    have h : (((81 : ℕ) : ℝ) - 69) / 12 = 1 := by norm_num
    rw [midiNoteFrequency, h, Real.rpow_one]
    norm_num
  refine ⟨?_, h69, h81, by rw [h81]; norm_num, ?_⟩
  · intro note octave
    refine ⟨rfl, ?_⟩
    rw [getFrequency, getFrequency, show (4 : ℤ) - 4 = 0 from rfl, zpow_zero, mul_one]
  · rw [h69]
    rw [show getFrequency NoteName.A 4 = 440 by
      rw [getFrequency, show (4 : ℤ) - 4 = 0 from rfl, zpow_zero, mul_one]
      norm_num [noteFrequencies]]
    norm_num

/-- The linear ceiling `10^(C/20)` is positive for every ceiling. -/
lemma dbToLinear_pos (db : ℝ) : 0 < dbToLinear db :=
  Real.rpow_pos_of_pos (by norm_num) _

/-- The hard-clipping rule never exceeds a positive ceiling in
magnitude, for any input. -/
lemma abs_hardClip_le (c : ℝ) (hc : 0 < c) (x : ℝ) : |hardClip c x| ≤ c := by
  unfold hardClip
  split_ifs with h1 h2
  · rw [abs_of_pos hc]
  · rw [abs_neg, abs_of_pos hc]
  · push_neg at h1 h2
    exact abs_le.mpr ⟨h2, h1⟩

/-- C2: every sample of the hard clipper's 4096-point transfer curve has
magnitude at most `10^(C/20)`, and on `[-1, 1]` the clipping rule is the
identity below the linear ceiling and clamps to the ceiling above it. -/
theorem hard_clipper_enforces_ceiling (ceilingDb : ℝ) :
    (∀ i : ℕ, i < 4096 → |hardClipperCurve ceilingDb i| ≤ dbToLinear ceilingDb) ∧
    (∀ x : ℝ, -1 ≤ x → x ≤ 1 →
        |hardClip (dbToLinear ceilingDb) x| ≤ dbToLinear ceilingDb ∧
        (|x| ≤ dbToLinear ceilingDb → hardClip (dbToLinear ceilingDb) x = x) ∧
        (dbToLinear ceilingDb < x →
          hardClip (dbToLinear ceilingDb) x = dbToLinear ceilingDb) ∧
        (x < -dbToLinear ceilingDb →
          hardClip (dbToLinear ceilingDb) x = -dbToLinear ceilingDb)) := by
  have hc := dbToLinear_pos ceilingDb
  refine ⟨fun i _ => abs_hardClip_le _ hc _,
    fun x _ _ => ⟨abs_hardClip_le _ hc x, ?_, ?_, ?_⟩⟩
  · intro hx
    rw [hardClip, if_neg (not_lt.mpr (abs_le.mp hx).2), if_neg (not_lt.mpr (abs_le.mp hx).1)]
  · intro hx
    rw [hardClip, if_pos hx]
  · intro hx
    have hxc : ¬ (dbToLinear ceilingDb < x) := by
      push_neg
      nlinarith
    rw [hardClip, if_neg hxc, if_pos hx]

/-- Witness for C2 at ceiling 0 dB, sample 0 and input 1/2. -/
theorem hard_clipper_enforces_ceiling_witness :
    (0 : ℕ) < 4096 ∧ (-1 : ℝ) ≤ 1/2 ∧ (1/2 : ℝ) ≤ 1 ∧
    |hardClipperCurve 0 0| ≤ dbToLinear 0 ∧
    (|(1/2 : ℝ)| ≤ dbToLinear 0 → hardClip (dbToLinear 0) (1/2) = 1/2) :=
  ⟨by norm_num, by norm_num, by norm_num,
   (hard_clipper_enforces_ceiling 0).1 0 (by norm_num),
   ((hard_clipper_enforces_ceiling 0).2 (1/2) (by norm_num) (by norm_num)).2.1⟩

/-- C4 counterexample: removing the last voice (new count 0) schedules
no master-gain ramp at all: `updateMasterGainForPolyphony` returns
without scheduling (`if (numVoices === 0 || !this.audioContext)
return;`), so in particular the gain is not ramped to
`masterVolume * min(1, 0.5 + 0.5/sqrt(0))` as the claim would require. -/
theorem polyphony_compensation_counterexample :
    updateMasterGainForPolyphony true (1/2) 0 = none ∧
    updateMasterGainForPolyphony true (1/2) 0 ≠ some ((1/2) * compensationFactor 0) := by
  constructor
  · simp [updateMasterGainForPolyphony]
  · simp [updateMasterGainForPolyphony]

/-- `sqrt 1 = 1` stated on the cast used by `compensationFactor`. -/
lemma sqrt_cast_one : Real.sqrt ((1 : ℕ) : ℝ) = 1 := by
  rw [Nat.cast_one, Real.sqrt_one]

/-- `sqrt 4 = 2` stated on the cast used by `compensationFactor`. -/
lemma sqrt_cast_four : Real.sqrt ((4 : ℕ) : ℝ) = 2 := by
  rw [show ((4 : ℕ) : ℝ) = 2 ^ 2 by norm_num, Real.sqrt_sq (by norm_num : (0:ℝ) ≤ 2)]

/-- `sqrt 9 = 3` stated on the cast used by `compensationFactor`. -/
lemma sqrt_cast_nine : Real.sqrt ((9 : ℕ) : ℝ) = 3 := by
  rw [show ((9 : ℕ) : ℝ) = 3 ^ 2 by norm_num, Real.sqrt_sq (by norm_num : (0:ℝ) ≤ 3)]

/-- C4 amended: on every update with new voice count `n ≥ 1` the master
gain is ramped to `masterVolume * min(1, 0.5 + 0.5/sqrt(n))`; when the
last voice is removed (new count 0) the update is a no-op and no ramp is
scheduled. The compensation factor equals 1, 3/4 and 2/3 at n = 1, 4, 9
and is within 0.001 of 0.854 at n = 2. -/
theorem polyphony_compensation_amended :
    (∀ (masterVolume : ℝ) (n : ℕ), 1 ≤ n →
        updateMasterGainForPolyphony true masterVolume n
          = some (masterVolume * compensationFactor n)) ∧
    (∀ (ready : Bool) (masterVolume : ℝ),
        updateMasterGainForPolyphony ready masterVolume 0 = none) ∧
    compensationFactor 1 = 1 ∧
    compensationFactor 4 = 3/4 ∧
    compensationFactor 9 = 2/3 ∧
    |compensationFactor 2 - 0.854| ≤ 0.001 := by
  have hs2pos : (0 : ℝ) < Real.sqrt 2 := Real.sqrt_pos.mpr (by norm_num)
  have h1 : (1.414 : ℝ) ≤ Real.sqrt 2 := by
    rw [show (1.414 : ℝ) = Real.sqrt (1.414 ^ 2) from (Real.sqrt_sq (by norm_num)).symm]
    exact Real.sqrt_le_sqrt (by norm_num)
  have h2 : Real.sqrt 2 ≤ 1.4143 := by
    rw [show (1.4143 : ℝ) = Real.sqrt (1.4143 ^ 2) from (Real.sqrt_sq (by norm_num)).symm]
    exact Real.sqrt_le_sqrt (by norm_num)
  refine ⟨?_, ?_, ?_, ?_, ?_, ?_⟩
  · intro mv n hn
    rw [updateMasterGainForPolyphony, if_neg]
    simp [Nat.one_le_iff_ne_zero.mp hn]
  · intro ready mv
    simp [updateMasterGainForPolyphony]
  · rw [compensationFactor, sqrt_cast_one]
    norm_num
  · rw [compensationFactor, sqrt_cast_four]
    norm_num
  · rw [compensationFactor, sqrt_cast_nine]
    norm_num
  · have hcast : ((2 : ℕ) : ℝ) = 2 := by norm_num
    have hdivlo : (0.5 : ℝ) / 1.4143 ≤ 0.5 / Real.sqrt 2 := by
      gcongr
    have hdivhi : (0.5 : ℝ) / Real.sqrt 2 ≤ 0.5 / 1.414 := by
      gcongr
    have hmin : compensationFactor 2 = 0.5 + 0.5 / Real.sqrt 2 := by
      rw [compensationFactor, hcast]
      apply min_eq_right
      have : (0.5 : ℝ) / 1.414 ≤ 0.5 := by norm_num
      linarith
    rw [hmin, abs_le]
    constructor
    · have : (0.353 : ℝ) ≤ 0.5 / 1.4143 := by norm_num
      linarith
    · have : (0.5 : ℝ) / 1.414 ≤ 0.354 := by norm_num
      linarith

/-- Witness for C4 at master volume 1/2 and voice count 4. -/
theorem polyphony_compensation_witness :
    (1 : ℕ) ≤ 4 ∧
    updateMasterGainForPolyphony true (1/2) 4 = some ((1/2) * compensationFactor 4) :=
  ⟨by norm_num, polyphony_compensation_amended.1 (1/2) 4 (by norm_num)⟩

/-- C10: an incoming message with status nibble 0x90 and velocity 0 is
dispatched to the note-off handler, exactly as a 0x80 message for the
same note on any channel, and is never dispatched to the note-on
handler (so it cannot create a voice and releases the note exactly as a
Note Off would). -/
theorem midi_note_on_zero_velocity_is_note_off :
    ∀ (command note : ℕ), command &&& 0xf0 = 0x90 →
      handleMIDIMessage command note 0 = MIDIDispatch.noteOff note ∧
      (∀ (command2 velocity2 : ℕ), command2 &&& 0xf0 = 0x80 →
          handleMIDIMessage command2 note velocity2 = handleMIDIMessage command note 0) ∧
      (∀ n v : ℕ, handleMIDIMessage command note 0 ≠ MIDIDispatch.noteOn n v) := by
  intro command note h
  have hoff : handleMIDIMessage command note 0 = MIDIDispatch.noteOff note := by
    simp [handleMIDIMessage, h]
  refine ⟨hoff, ?_, ?_⟩
  · intro c2 v2 h2
    rw [hoff]
    simp [handleMIDIMessage, h2]
  · intro n v
    rw [hoff]
    simp

/-- Witness for C10 at command 0x90, note 60. -/
theorem midi_note_on_zero_velocity_witness :
    (0x90 &&& 0xf0 = 0x90) ∧ handleMIDIMessage 0x90 60 0 = MIDIDispatch.noteOff 60 :=
  ⟨by decide, (midi_note_on_zero_velocity_is_note_off 0x90 60 (by decide)).1⟩

/-- A throw-model in which only the amplitude-gain disconnect raises
(e.g. because that node was already torn down). -/
def ampGainDisconnectThrows : CleanupStep → Bool
  | .disconnectAmpGain => true
  | _ => false

/-- C8 counterexample: when the amplitude-gain disconnect throws, the
remaining cleanup steps (filter and per-source gain disconnects) do not
execute, because the single try/catch aborts the block; they are not
individually protected. -/
theorem cleanup_individual_protection_counterexample :
    runCleanup ampGainDisconnectThrows = [CleanupStep.disconnectAmpGain] ∧
    CleanupStep.disconnectFilter ∉ runCleanup ampGainDisconnectThrows ∧
    CleanupStep.disconnectGainNodes ∉ runCleanup ampGainDisconnectThrows := by
  refine ⟨rfl, by decide, by decide⟩

/-- C8 amended: the deferred cleanup wraps all three disconnects in one
try/catch, so no exception escapes the callback, but an exception from
an earlier disconnect skips the remaining ones: the executed steps are
exactly the prefix up to and including the first throwing disconnect,
and all three execute only when neither of the first two throws. -/
theorem cleanup_single_try_block_amended (throws : CleanupStep → Bool) :
    runCleanup throws =
      if throws .disconnectAmpGain then [.disconnectAmpGain]
      else if throws .disconnectFilter then [.disconnectAmpGain, .disconnectFilter]
      else cleanupSteps := by
  cases h1 : throws .disconnectAmpGain <;>
    cases h2 : throws .disconnectFilter <;>
    cases h3 : throws .disconnectGainNodes <;>
    simp [runCleanup, runTryBlock, cleanupSteps, h1, h2, h3]

/-- Deleting a key removes every binding for it. -/
lemma mapLookup_mapDelete_self (k : String) (m : List (String × Voice)) :
    mapLookup k (mapDelete k m) = none := by
  induction m with
  | nil => rfl
  | cons kv rest ih =>
    rcases kv with ⟨k0, v0⟩
    by_cases h : k0 = k
    · simpa [mapDelete, List.filter_cons, h] using ih
    · simpa [mapDelete, List.filter_cons, h, mapLookup] using ih

/-- Deleting a key leaves no entry stored under it. -/
lemma countKey_mapDelete (k : String) (m : List (String × Voice)) :
    countKey k (mapDelete k m) = 0 := by
  induction m with
  | nil => rfl
  | cons kv rest ih =>
    rcases kv with ⟨k0, v0⟩
    by_cases h : k0 = k
    · simp [mapDelete, countKey, List.filter_cons, h] at ih ⊢
    · simp [mapDelete, countKey, List.filter_cons, h] at ih ⊢

/-- Setting a key absent from the map yields exactly one entry for it. -/
lemma countKey_mapSet_of_zero (k : String) (v : Voice) (m : List (String × Voice))
    (h : countKey k m = 0) : countKey k (mapSet k v m) = 1 := by
  induction m with
  | nil => simp [mapSet, countKey, List.filter_cons]
  | cons kv rest ih =>
    rcases kv with ⟨k0, v0⟩
    by_cases h0 : k0 = k
    · exfalso
      simp [countKey, List.filter_cons, h0] at h
    · simp only [countKey, List.filter_cons, h0] at h
      simp only [mapSet, if_neg h0, countKey, List.filter_cons]
      simpa [countKey, h0] using ih (by simpa [countKey, h0] using h)

/-- Looking up a key just set returns the new value. -/
lemma mapLookup_mapSet_self (k : String) (v : Voice) (m : List (String × Voice)) :
    mapLookup k (mapSet k v m) = some v := by
  induction m with
  | nil => simp [mapSet, mapLookup]
  | cons kv rest ih =>
    rcases kv with ⟨k0, v0⟩
    by_cases h0 : k0 = k
    · simp [mapSet, h0, mapLookup]
    · simpa [mapSet, h0, mapLookup] using ih

/-- C7: `stopNote` is idempotent. When the identity has no active voice
the call returns the state unchanged (no scheduling, no timer changes,
no log growth); after a first `stopNote` the identity is gone from the
map, so an immediate second `stopNote` changes nothing. -/
theorem stopNote_idempotent :
    (∀ (s : VMState) (noteId : String) (now : ℚ),
        mapLookup noteId s.activeVoices = none → stopNote s noteId now = s) ∧
    (∀ (s : VMState) (noteId : String) (now now2 : ℚ) (v : Voice),
        mapLookup noteId s.activeVoices = some v →
          mapLookup noteId (stopNote s noteId now).activeVoices = none ∧
          stopNote (stopNote s noteId now) noteId now2 = stopNote s noteId now) := by
  have hnone : ∀ (s : VMState) (noteId : String) (now : ℚ),
      mapLookup noteId s.activeVoices = none → stopNote s noteId now = s := by
    intro s noteId now h
    simp [stopNote, h]
  refine ⟨hnone, ?_⟩
  intro s noteId now now2 v h
  have hvoices : (stopNote s noteId now).activeVoices = mapDelete noteId s.activeVoices := by
    simp [stopNote, h]
  have hlk : mapLookup noteId (stopNote s noteId now).activeVoices = none := by
    rw [hvoices]
    exact mapLookup_mapDelete_self _ _
  exact ⟨hlk, hnone _ _ _ hlk⟩

/-- A minimal concrete active voice, used by the concrete witnesses. -/
def witnessVoice : Voice :=
  { id := 0
    createdAt := 0
    sources := 2
    hasLfo := false
    ampGain := ⟨0, []⟩
    safetyTimer := some 0
    cleanupTimer := none }

/-- A voice-manager state holding one active voice under key `"C_0"`. -/
def witnessState : VMState :=
  { initialVoiceManager with
      nextVoiceId := 1
      nextTimerId := 1
      activeVoices := [("C_0", witnessVoice)] }

/-- Witness for C7: a concrete double release. -/
theorem stopNote_idempotent_witness :
    mapLookup "C_0" witnessState.activeVoices = some witnessVoice ∧
    mapLookup "C_0" (stopNote witnessState "C_0" 1).activeVoices = none ∧
    stopNote (stopNote witnessState "C_0" 1) "C_0" 2 = stopNote witnessState "C_0" 1 :=
  ⟨rfl, (stopNote_idempotent.2 witnessState "C_0" 1 2 witnessVoice rfl).1,
    (stopNote_idempotent.2 witnessState "C_0" 1 2 witnessVoice rfl).2⟩

/-- The fresh voice `playNote` constructs does not depend on the map or
log fields, so tearing down the old voice first does not change it. -/
lemma freshVoice_cleanupVoice (s : VMState) (k : String) (v : Voice) (now t : ℚ) :
    freshVoice (cleanupVoice s k v t) now = freshVoice s now := rfl

/-- C1 amended: in the modular `VoiceManager.playNote`, a retrigger
first synchronously tears down the prior voice (its pending timers are
cleared and its sources stopped at the current time, logged before any
creation effect), removes it, and stores exactly one fresh replacement
voice; in the legacy monolithic `Synthesizer.playNote`, a retrigger
while the identity is active is ignored entirely (early return), which
also leaves exactly one (the original) voice in the map, but performs no
teardown and creates no replacement. -/
theorem playNote_retrigger_amended :
    (∀ (s : VMState) (note : String) (octaveOffset : ℤ) (now : ℚ) (oldVoice : Voice),
        mapLookup (noteIdOf note octaveOffset) s.activeVoices = some oldVoice →
          countKey (noteIdOf note octaveOffset)
              (playNote s note octaveOffset now).activeVoices = 1 ∧
          mapLookup (noteIdOf note octaveOffset)
              (playNote s note octaveOffset now).activeVoices = some (freshVoice s now) ∧
          (freshVoice s now).id = s.nextVoiceId ∧
          (freshVoice s now).createdAt = now ∧
          (playNote s note octaveOffset now).log
            = s.log ++ teardownEffects oldVoice now ++
              [Effect.polyphonyUpdate
                 (mapSet (noteIdOf note octaveOffset) (freshVoice s now)
                    (mapDelete (noteIdOf note octaveOffset) s.activeVoices)).length,
               Effect.startSafetyTimer s.nextTimerId 60000]) ∧
    (∀ (s : VMState) (note : String) (octaveOffset : ℤ) (now : ℚ),
        (mapLookup (noteIdOf note octaveOffset) s.activeVoices).isSome = true →
          playNoteMono s note octaveOffset now = s) := by
  constructor
  · intro s note oct now oldVoice h
    have hcnt0 : countKey (noteIdOf note oct) (mapDelete (noteIdOf note oct) s.activeVoices) = 0 :=
      countKey_mapDelete _ _
    refine ⟨?_, ?_, rfl, rfl, ?_⟩
    · simp only [playNote, h, cleanupVoice]
      exact countKey_mapSet_of_zero _ _ _ hcnt0
    · simp only [playNote, h, cleanupVoice]
      exact mapLookup_mapSet_self _ _ _
    · simp only [playNote, h, cleanupVoice]
      simp [List.append_assoc]
      rfl
  · intro s note oct now h
    simp [playNoteMono, h]

/-- C1 counterexample (for the monolithic `Synthesizer.playNote` the
claim also cites): replaying `"C"` while it is still sounding leaves the
state identical — the original voice (id 0, created at time 0) stays in
the map, nothing is torn down (the effect log stays empty) and no
replacement voice is created. -/
theorem playNote_retrigger_counterexample :
    playNoteMono (playNoteMono initialVoiceManager "C" 0 0) "C" 0 1
      = playNoteMono initialVoiceManager "C" 0 0 ∧
    (mapLookup "C_0"
        (playNoteMono (playNoteMono initialVoiceManager "C" 0 0) "C" 0 1).activeVoices).map
        Voice.id = some 0 ∧
    (mapLookup "C_0"
        (playNoteMono (playNoteMono initialVoiceManager "C" 0 0) "C" 0 1).activeVoices).map
        Voice.createdAt = some 0 ∧
    (playNoteMono (playNoteMono initialVoiceManager "C" 0 0) "C" 0 1).log = [] :=
  ⟨rfl, rfl, rfl, rfl⟩

/-- Witness for C1: a concrete retrigger on a state with an active
voice. -/
theorem playNote_retrigger_witness :
    mapLookup (noteIdOf "C" 0) witnessState.activeVoices = some witnessVoice ∧
    countKey (noteIdOf "C" 0) (playNote witnessState "C" 0 1).activeVoices = 1 ∧
    mapLookup (noteIdOf "C" 0) (playNote witnessState "C" 0 1).activeVoices
      = some (freshVoice witnessState 1) ∧
    (freshVoice witnessState 1).id = witnessState.nextVoiceId :=
  ⟨rfl, (playNote_retrigger_amended.1 witnessState "C" 0 1 witnessVoice rfl).1,
   (playNote_retrigger_amended.1 witnessState "C" 0 1 witnessVoice rfl).2.1,
   (playNote_retrigger_amended.1 witnessState "C" 0 1 witnessVoice rfl).2.2.1⟩

/-- Events anchored at or before the evaluation time are absorbed into
the running (value, time) anchor. -/
lemma evalAutomation_append (t : ℚ) :
    ∀ (es tail : List AutomationEvent) (pv pt : ℚ),
      (∀ e ∈ es, eventTime e ≤ t) →
      evalAutomation pv pt (es ++ tail) t
        = evalAutomation (runEvents pv pt es).1 (runEvents pv pt es).2 tail t := by
  intro es
  induction es with
  | nil =>
    intro tail pv pt _
    rfl
  | cons e rest ih =>
    intro tail pv pt h
    have hrest : ∀ e ∈ rest, eventTime e ≤ t := fun e he => h e (List.mem_cons_of_mem _ he)
    cases e with
    | setValue v te =>
      have hte : te ≤ t := h _ (List.mem_cons_self _ _)
      simp only [List.cons_append, evalAutomation, runEvents]
      rw [if_neg (not_lt.mpr hte)]
      exact ih tail v te hrest
    | linearRamp v te =>
      have hte : te ≤ t := h _ (List.mem_cons_self _ _)
      simp only [List.cons_append, evalAutomation, runEvents]
      rw [if_neg (not_lt.mpr hte)]
      exact ih tail v te hrest

/-- The event list built by the release scheduling: the pre-release
events anchored strictly before `now`, then the hold at the current
value, then the linear ramp to 0. -/
lemma releaseEnvelope_events (g : GainParam) (now release : ℚ) :
    (releaseEnvelope g now release).events
      = g.events.filter (fun e => eventTime e < now) ++
        [.setValue (paramValue g now) now, .linearRamp 0 (now + release)] := by
  simp [releaseEnvelope, cancelScheduledValues, setValueAtTime, linearRampToValueAtTime]

/-- The event list built at voice creation. -/
lemma ampEnvelope_events (now a d sus : ℚ) :
    (ampEnvelopeSchedule now a d sus).events
      = [.setValue 0 now, .linearRamp 1 (now + a), .linearRamp sus (now + a + d)] := rfl

/-- During the release window the parameter decays linearly from the
value it held when the release was scheduled down to 0. -/
lemma paramValue_releaseEnvelope (g : GainParam) (now release : ℚ) (hrel : 0 < release)
    (t : ℚ) (h1 : now ≤ t) (h2 : t ≤ now + release) :
    paramValue (releaseEnvelope g now release) t
      = paramValue g now * ((now + release - t) / release) := by
  have hval : (releaseEnvelope g now release).value = g.value := rfl
  rw [paramValue, hval, releaseEnvelope_events]
  rw [evalAutomation_append t _ _ g.value 0 ?hle]
  case hle =>
    intro e he
    have := (List.mem_filter.mp he).2
    have hlt : eventTime e < now := by simpa using this
    linarith
  simp only [evalAutomation]
  rw [if_neg (not_lt.mpr h1)]
  by_cases hlt : t < now + release
  · rw [if_pos hlt, if_neg (by linarith : ¬ (now + release ≤ now))]
    field_simp
    ring
  · have ht : t = now + release := le_antisymm h2 (not_lt.mp hlt)
    rw [if_neg hlt]
    simp [evalAutomation, ht]

/-- C5: the amplitude envelope of every voice created by `playNote` is
scheduled as value 0 at creation, a linear ramp reaching 1 at
`t0 + attack`, a linear ramp reaching the sustain level at
`t0 + attack + decay`, and holds the sustain level afterwards until
note-off; `stopNote` cancels the pending events and schedules a linear
ramp from the parameter's current instantaneous value (whatever it is -
not a fixed starting point) to 0 over the release duration. -/
theorem amplitude_envelope_correct :
    (∀ (s : VMState) (now : ℚ),
        (freshVoice s now).ampGain
          = ampEnvelopeSchedule now s.ampEnv.attack s.ampEnv.decay s.ampEnv.sustain) ∧
    (∀ (now a d sus : ℚ), 0 < a → 0 < d →
        paramValue (ampEnvelopeSchedule now a d sus) now = 0 ∧
        (∀ t, now ≤ t → t ≤ now + a →
            paramValue (ampEnvelopeSchedule now a d sus) t = (t - now) / a) ∧
        (∀ t, now + a ≤ t → t ≤ now + a + d →
            paramValue (ampEnvelopeSchedule now a d sus) t
              = 1 + (sus - 1) * (t - (now + a)) / d) ∧
        (∀ t, now + a + d ≤ t → paramValue (ampEnvelopeSchedule now a d sus) t = sus)) ∧
    (∀ (s : VMState) (noteId : String) (now : ℚ) (v : Voice),
        mapLookup noteId s.activeVoices = some v →
          (stopNote s noteId now).detachedGains
            = s.detachedGains ++ [(v.id, releaseEnvelope v.ampGain now s.ampEnv.release)]) ∧
    (∀ (g : GainParam) (now release : ℚ), 0 < release →
        (releaseEnvelope g now release).events
          = g.events.filter (fun e => eventTime e < now) ++
            [.setValue (paramValue g now) now, .linearRamp 0 (now + release)] ∧
        (∀ t, now ≤ t → t ≤ now + release →
            paramValue (releaseEnvelope g now release) t
              = paramValue g now * ((now + release - t) / release))) := by
  refine ⟨fun s now => rfl, ?_, ?_, ?_⟩
  · intro now a d sus ha hd
    have hattack : ∀ t, now ≤ t → t ≤ now + a →
        paramValue (ampEnvelopeSchedule now a d sus) t = (t - now) / a := by
      intro t h1 h2
      rw [paramValue, ampEnvelope_events]
      simp only [evalAutomation]
      rw [if_neg (not_lt.mpr h1)]
      by_cases hlt : t < now + a
      · rw [if_pos hlt, if_neg (by linarith : ¬ (now + a ≤ now))]
        field_simp
      · have ht : t = now + a := le_antisymm h2 (not_lt.mp hlt)
        rw [if_neg hlt, if_pos (by linarith : t < now + a + d),
          if_neg (by linarith : ¬ (now + a + d ≤ now + a))]
        rw [ht]
        field_simp
    refine ⟨?_, hattack, ?_, ?_⟩
    · rw [hattack now le_rfl (by linarith)]
      simp
    · intro t h1 h2
      rw [paramValue, ampEnvelope_events]
      simp only [evalAutomation]
      rw [if_neg (not_lt.mpr (by linarith : now ≤ t)), if_neg (not_lt.mpr h1)]
      by_cases hlt : t < now + a + d
      · rw [if_pos hlt, if_neg (by linarith : ¬ (now + a + d ≤ now + a))]
        have hsub : now + a + d - (now + a) = d := by ring
        rw [hsub]
      · have ht : t = now + a + d := le_antisymm h2 (not_lt.mp hlt)
        rw [if_neg hlt, ht]
        field_simp
    · intro t h1
      rw [paramValue, ampEnvelope_events]
      simp only [evalAutomation]
      rw [if_neg (not_lt.mpr (by linarith : now ≤ t)),
        if_neg (not_lt.mpr (by linarith : now + a ≤ t)), if_neg (not_lt.mpr h1)]
  · intro s noteId now v h
    simp [stopNote, h]
  · intro g now release hrel
    exact ⟨releaseEnvelope_events g now release,
      fun t h1 h2 => paramValue_releaseEnvelope g now release hrel t h1 h2⟩

/-- Witness for C5: the envelope at concrete parameters, and a concrete
release applying `releaseEnvelope` to the stored voice. -/
theorem amplitude_envelope_witness :
    (0 : ℚ) < 1 ∧
    paramValue (ampEnvelopeSchedule 0 1 1 (1/2)) 0 = 0 ∧
    mapLookup "C_0" witnessState.activeVoices = some witnessVoice ∧
    (stopNote witnessState "C_0" 1).detachedGains
      = witnessState.detachedGains ++
        [(witnessVoice.id, releaseEnvelope witnessVoice.ampGain 1 witnessState.ampEnv.release)] :=
  ⟨by norm_num,
   (amplitude_envelope_correct.2.1 0 1 1 (1/2) (by norm_num) (by norm_num)).1,
   rfl,
   amplitude_envelope_correct.2.2.1 witnessState "C_0" 1 witnessVoice rfl⟩

/-- A prefix of a signal path is a signal path. -/
lemma isChain_append_left (E : List (ChainNode × ChainNode)) :
    ∀ (xs ys : List ChainNode), isChain E (xs ++ ys) = true → isChain E xs = true := by
  intro xs
  induction xs with
  | nil =>
    intro ys _
    rfl
  | cons a rest ih =>
    intro ys h
    cases rest with
    | nil => rfl
    | cons b rest2 =>
      rw [List.cons_append, List.cons_append, isChain, Bool.and_eq_true] at h
      rw [isChain, Bool.and_eq_true]
      exact ⟨h.1, ih ys h.2⟩

/-- The last element of a nonempty list with one element appended. -/
lemma getLast_cons_concat (a x : ChainNode) (l : List ChainNode) :
    (a :: (l ++ [x])).getLast? = some x := by
  induction l generalizing a with
  | nil => rfl
  | cons b rest ih =>
    rw [List.cons_append, List.getLast?_cons_cons]
    exact ih b

/-- A path with at least two nodes ending at a node with a unique
in-edge ends with that unique predecessor just before it. -/
lemma chain_ends_pair (E : List (ChainNode × ChainNode)) (target pred : ChainNode)
    (hpred : ∀ a, (a, target) ∈ E → a = pred) :
    ∀ (l : List ChainNode), isChain E l = true → l.getLast? = some target →
      2 ≤ l.length → ∃ pre, l = pre ++ [pred, target] := by
  intro l
  induction l with
  | nil =>
    intro _ h _
    simp at h
  | cons a rest ih =>
    intro hc hl hlen
    cases rest with
    | nil => simp at hlen
    | cons b rest2 =>
      cases rest2 with
      | nil =>
        have hb : b = target := by simpa using hl
        have hab : (a, b) ∈ E := by
          rw [isChain, Bool.and_eq_true, decide_eq_true_eq] at hc
          exact hc.1
        subst hb
        have ha := hpred a hab
        subst ha
        exact ⟨[], rfl⟩
      | cons c rest3 =>
        have hc2 : isChain E (b :: c :: rest3) = true := by
          rw [isChain, Bool.and_eq_true] at hc
          exact hc.2
        have hl2 : (b :: c :: rest3).getLast? = some target := by
          rw [← List.getLast?_cons_cons]
          exact hl
        obtain ⟨pre, hpre⟩ := ih hc2 hl2 (by simp)
        refine ⟨a :: pre, ?_⟩
        rw [List.cons_append, ← hpre]

/-- C9 amended: in the modular `connectEffectsChain` graph, every signal
path from the master gain to the output destination ends with
`limiterGain → limiterCompressor → hardClipper → analyser →
destination`, so the analysis tap sits downstream of the whole limiter
stage and reads only the protected post-limiter output. In the legacy
monolithic `initAudioContext` graph (which the claim also cites) no
limiter stage exists at all: no edge touches the limiter nodes. -/
theorem analyser_after_limiter_amended :
    (∀ l : List ChainNode, isChain modularEdges l = true →
        l.head? = some ChainNode.masterGain → l.getLast? = some ChainNode.destination →
        ∃ pre, pre ≠ [] ∧
          l = pre ++ [ChainNode.limiterGain, ChainNode.limiterCompressor,
                      ChainNode.hardClipper, ChainNode.analyser, ChainNode.destination]) ∧
    (∀ a b : ChainNode, (a, b) ∈ monolithEdges →
        a ≠ ChainNode.limiterGain ∧ a ≠ ChainNode.limiterCompressor ∧
        a ≠ ChainNode.hardClipper ∧ b ≠ ChainNode.limiterGain ∧
        b ≠ ChainNode.limiterCompressor ∧ b ≠ ChainNode.hardClipper) := by
  constructor
  · intro l hc hhead hlast
    have pdest : ∀ a, (a, ChainNode.destination) ∈ modularEdges → a = ChainNode.analyser := by
      decide
    have pana : ∀ a, (a, ChainNode.analyser) ∈ modularEdges → a = ChainNode.hardClipper := by
      decide
    have pclip : ∀ a, (a, ChainNode.hardClipper) ∈ modularEdges →
        a = ChainNode.limiterCompressor := by
      decide
    have pcomp : ∀ a, (a, ChainNode.limiterCompressor) ∈ modularEdges →
        a = ChainNode.limiterGain := by
      decide
    obtain ⟨l1, rfl⟩ : ∃ l1, l = ChainNode.masterGain :: l1 := by
      cases l with
      | nil => simp at hhead
      | cons x xs =>
        rw [List.head?_cons, Option.some.injEq] at hhead
        exact ⟨xs, by rw [hhead]⟩
    cases l1 with
    | nil => simp at hlast
    | cons y ys =>
      obtain ⟨pre1, he1⟩ :=
        chain_ends_pair modularEdges ChainNode.destination ChainNode.analyser pdest
          (ChainNode.masterGain :: y :: ys) hc hlast (by simp)
      obtain ⟨p1, pre1, rfl⟩ : ∃ p1 pre1x, pre1 = p1 :: pre1x := by
        cases pre1 with
        | nil => simp at he1
        | cons p1 pre1x => exact ⟨p1, pre1x, rfl⟩
      rw [List.cons_append] at he1
      obtain ⟨hp1, he1t⟩ := List.cons.injEq .. ▸ he1
      subst hp1
      have hcl1 : isChain modularEdges (ChainNode.masterGain :: (pre1 ++ [ChainNode.analyser])) = true := by
        apply isChain_append_left modularEdges
          (ChainNode.masterGain :: (pre1 ++ [ChainNode.analyser])) [ChainNode.destination]
        have e1 : (ChainNode.masterGain :: (pre1 ++ [ChainNode.analyser])) ++ [ChainNode.destination]
            = ChainNode.masterGain :: y :: ys := by
          rw [he1]
          simp
        rw [e1]
        exact hc
      obtain ⟨pre2, he2⟩ :=
        chain_ends_pair modularEdges ChainNode.analyser ChainNode.hardClipper pana
          (ChainNode.masterGain :: (pre1 ++ [ChainNode.analyser])) hcl1
          (getLast_cons_concat _ _ _) (by simp)
      obtain ⟨p2, pre2, rfl⟩ : ∃ p2 pre2x, pre2 = p2 :: pre2x := by
        cases pre2 with
        | nil => simp at he2
        | cons p2 pre2x => exact ⟨p2, pre2x, rfl⟩
      rw [List.cons_append] at he2
      obtain ⟨hp2, he2t⟩ := List.cons.injEq .. ▸ he2
      subst hp2
      have hcl2 : isChain modularEdges (ChainNode.masterGain :: (pre2 ++ [ChainNode.hardClipper])) = true := by
        apply isChain_append_left modularEdges
          (ChainNode.masterGain :: (pre2 ++ [ChainNode.hardClipper])) [ChainNode.analyser]
        have e2 : (ChainNode.masterGain :: (pre2 ++ [ChainNode.hardClipper])) ++ [ChainNode.analyser]
            = ChainNode.masterGain :: (pre1 ++ [ChainNode.analyser]) := by
          rw [List.cons_append, List.append_assoc]
          rw [he2t]
          simp
        rw [e2]
        exact hcl1
      obtain ⟨pre3, he3⟩ :=
        chain_ends_pair modularEdges ChainNode.hardClipper ChainNode.limiterCompressor pclip
          (ChainNode.masterGain :: (pre2 ++ [ChainNode.hardClipper])) hcl2
          (getLast_cons_concat _ _ _) (by simp)
      obtain ⟨p3, pre3, rfl⟩ : ∃ p3 pre3x, pre3 = p3 :: pre3x := by
        cases pre3 with
        | nil => simp at he3
        | cons p3 pre3x => exact ⟨p3, pre3x, rfl⟩
      rw [List.cons_append] at he3
      obtain ⟨hp3, he3t⟩ := List.cons.injEq .. ▸ he3
      subst hp3
      have hcl3 : isChain modularEdges (ChainNode.masterGain :: (pre3 ++ [ChainNode.limiterCompressor])) = true := by
        apply isChain_append_left modularEdges
          (ChainNode.masterGain :: (pre3 ++ [ChainNode.limiterCompressor])) [ChainNode.hardClipper]
        have e3 : (ChainNode.masterGain :: (pre3 ++ [ChainNode.limiterCompressor])) ++ [ChainNode.hardClipper]
            = ChainNode.masterGain :: (pre2 ++ [ChainNode.hardClipper]) := by
          rw [List.cons_append, List.append_assoc]
          rw [he3t]
          simp
        rw [e3]
        exact hcl2
      obtain ⟨pre4, he4⟩ :=
        chain_ends_pair modularEdges ChainNode.limiterCompressor ChainNode.limiterGain pcomp
          (ChainNode.masterGain :: (pre3 ++ [ChainNode.limiterCompressor])) hcl3
          (getLast_cons_concat _ _ _) (by simp)
      obtain ⟨p4, pre4, rfl⟩ : ∃ p4 pre4x, pre4 = p4 :: pre4x := by
        cases pre4 with
        | nil => simp at he4
        | cons p4 pre4x => exact ⟨p4, pre4x, rfl⟩
      rw [List.cons_append] at he4
      obtain ⟨hp4, he4t⟩ := List.cons.injEq .. ▸ he4
      subst hp4
      refine ⟨ChainNode.masterGain :: pre4, by simp, ?_⟩
      rw [List.cons_append, he1t]
      congr 1
      rw [show pre1 ++ [ChainNode.analyser, ChainNode.destination]
          = (pre1 ++ [ChainNode.analyser]) ++ [ChainNode.destination] by simp, he2t]
      rw [show (pre2 ++ [ChainNode.hardClipper, ChainNode.analyser]) ++ [ChainNode.destination]
          = (pre2 ++ [ChainNode.hardClipper]) ++ [ChainNode.analyser, ChainNode.destination] by
            simp, he3t]
      rw [show (pre3 ++ [ChainNode.limiterCompressor, ChainNode.hardClipper]) ++
            [ChainNode.analyser, ChainNode.destination]
          = (pre3 ++ [ChainNode.limiterCompressor]) ++
            [ChainNode.hardClipper, ChainNode.analyser, ChainNode.destination] by simp, he4t]
      simp
  · intro a b h
    revert h
    revert a b
    decide

/-- The direct post-reverb path of the legacy monolithic graph. -/
def monolithBypassPath : List ChainNode :=
  [.masterGain, .distortion, .chorusDry, .flangerDry, .delayDry, .reverbDry,
   .analyser, .destination]

/-- C9 counterexample: in the legacy monolithic `initAudioContext` graph
(which the claim also cites), the signal path master gain → distortion →
chorus dry → flanger dry → delay dry → reverb dry → analyser →
destination reaches the analyser and the destination without passing
through any limiter node — the graph has no limiter stage. -/
theorem analyser_after_limiter_counterexample :
    isChain monolithEdges monolithBypassPath = true ∧
    monolithBypassPath.head? = some ChainNode.masterGain ∧
    monolithBypassPath.getLast? = some ChainNode.destination ∧
    ChainNode.limiterGain ∉ monolithBypassPath ∧
    ChainNode.limiterCompressor ∉ monolithBypassPath ∧
    ChainNode.hardClipper ∉ monolithBypassPath := by
  refine ⟨by decide, rfl, by decide, by decide, by decide, by decide⟩

/-- The full dry path of the modular graph, used as the C9 witness. -/
def modularMainPath : List ChainNode :=
  [.masterGain, .distortion, .chorusDry, .flangerDry, .delayDry, .reverbDry,
   .limiterGain, .limiterCompressor, .hardClipper, .analyser, .destination]

/-- Witness for C9 on a concrete modular signal path. -/
theorem analyser_after_limiter_witness :
    isChain modularEdges modularMainPath = true ∧
    modularMainPath.head? = some ChainNode.masterGain ∧
    modularMainPath.getLast? = some ChainNode.destination ∧
    (∃ pre, pre ≠ [] ∧
        modularMainPath = pre ++ [ChainNode.limiterGain, ChainNode.limiterCompressor,
                                  ChainNode.hardClipper, ChainNode.analyser,
                                  ChainNode.destination]) :=
  ⟨by decide, rfl, by decide,
   analyser_after_limiter_amended.1 modularMainPath (by decide) rfl (by decide)⟩

/-- The percentage round trip is exact on rationals. -/
lemma pct_round_trip (x : ℚ) : x / 100 * 100 = x :=
  div_mul_cancel₀ x (by norm_num)

/-- A present optional field read through a `||` whose default is the
value 0 itself always survives the round trip. -/
lemma orDefault_zero_default (x : Option ℚ) : ∀ v, x = some v → orDefault x 0 = v := by
  intro v h
  subst h
  by_cases hv : v = 0
  · simp [orDefault, hv]
  · simp [orDefault, hv]

/-- A present optional field read through `||` keeps its value exactly
when the stored value is not 0 (JS would replace a stored 0 by the
default). -/
lemma orDefault_ne_some_zero (x : Option ℚ) (d : ℚ) (hx : x ≠ some 0) :
    ∀ v, x = some v → orDefault x d = v := by
  intro v h
  subst h
  have hv : v ≠ 0 := fun h0 => hx (by rw [h0])
  simp [orDefault, hv]

/-- The load/save round trip holds for every preset whose present
falsy-defaulted fields (`chorusRate`, `flangerRate`,
`flangerFeedbackAmount`, `maxVolume`) are nonzero; the remaining
optional fields have 0 as their `||` default, so any stored value
survives. -/
lemma preset_round_trip_of_nonzero (p : Preset)
    (h1 : p.effects.chorusRate ≠ some 0)
    (h2 : p.effects.flangerRate ≠ some 0)
    (h3 : p.effects.flangerFeedbackAmount ≠ some 0)
    (h4 : p.maxVolume ≠ some 0) :
    presetMatches p (getCurrentSettings (loadPreset p)) := by
  obtain ⟨nm, ⟨w1, d1, l1⟩, ⟨w2, d2, l2⟩, nl, oct, fil, amp,
    ⟨lw, lr, lp, lf, la⟩, ⟨edt, edf, edm, erm, edd, ecr, ecd, efr, efd, eff⟩, mv, mxv⟩ := p
  simp only [presetMatches, getCurrentSettings, loadPreset, pct_round_trip] at h1 h2 h3 h4 ⊢
  repeat' apply And.intro
  all_goals first
    | trivial
    | exact orDefault_zero_default edd
    | exact orDefault_zero_default ecd
    | exact orDefault_zero_default efd
    | exact orDefault_ne_some_zero ecr 0.5 h1
    | exact orDefault_ne_some_zero efr 0.3 h2
    | exact orDefault_ne_some_zero eff 50 h3
    | exact orDefault_ne_some_zero mxv 100 h4

/-- Every built-in preset stores nonzero values (or nothing) in the
fields whose `||` default would swallow a stored 0. -/
lemma builtin_presets_wf :
    ∀ p ∈ builtinPresets,
      p.effects.chorusRate ≠ some 0 ∧ p.effects.flangerRate ≠ some 0 ∧
      p.effects.flangerFeedbackAmount ≠ some 0 ∧ p.maxVolume ≠ some 0 := by
  simp only [builtinPresets, bassPresets, leadPresets, padPresets, fxPresets,
    deepSubBassPreset, List.forall_mem_append, List.forall_mem_cons, List.forall_mem_nil,
    List.not_mem_nil]
  norm_num
  all_goals simp

/-- C6: loading any built-in preset and reading the settings back yields
a snapshot field-wise equal to the preset on every field the preset
defines; the percentage/decimal conversions round-trip exactly (hence
within the 1e-6 tolerance the spec allows for the float arithmetic). -/
theorem preset_round_trip :
    ∀ p ∈ builtinPresets, presetMatches p (getCurrentSettings (loadPreset p)) := by
  intro p hp
  obtain ⟨h1, h2, h3, h4⟩ := builtin_presets_wf p hp
  exact preset_round_trip_of_nonzero p h1 h2 h3 h4

/-- Witness for C6 on the first built-in preset. -/
theorem preset_round_trip_witness :
    deepSubBassPreset ∈ builtinPresets ∧
    presetMatches deepSubBassPreset (getCurrentSettings (loadPreset deepSubBassPreset)) :=
  ⟨by simp [builtinPresets, bassPresets],
   preset_round_trip deepSubBassPreset (by simp [builtinPresets, bassPresets])⟩

end Synth
